import Mathlib

/-!
# Curious-cat behaviour controller (`src/cat-behavior.c`)

A shallow embedding of the behaviour controller of the OBS "curious cat"
plugin, and theorems about it.

Modelling conventions.

* C `float` values are idealised as elements of an arbitrary linearly ordered
  field `F` (exact arithmetic, no rounding, no NaN).  Every definition is
  computable; over `ℚ` it can be evaluated.
* The C library is not part of the repository.  What the controller uses from
  it is collected in `CLib`: `sqrtf`, `cosf`, `sinf`, the constants `M_PI` and
  `RAND_MAX`.  Theorems that need a property of one of these functions state
  it as a hypothesis.
* `rand()` is a stream of natural numbers (`Rng`); a function that calls
  `rand()` takes the stream and returns the rest of it.
* `time(NULL)` is an input.  `cat_behavior_tick` reads the clock once itself
  (`current_time`) and once more inside the entry action of the transition
  it fires, if any (`entry_time`).
* `time_t` is `Int`, `uint32_t` is `Nat`.
-/

set_option autoImplicit false

namespace CuriousCat

/-- Behaviour states, `cat_state_t` of `cat-behavior.h`. -/
inductive cat_state_t where
  | CAT_STATE_WANDERING
  | CAT_STATE_EXAMINING
  | CAT_STATE_RETREATING
  deriving DecidableEq, Repr

open cat_state_t

/-- What the controller takes from the C library. -/
structure CLib (F : Type) where
  sqrtf : F → F
  cosf : F → F
  sinf : F → F
  M_PI : F
  RAND_MAX : Nat

/-- The successive results of `rand()`. -/
abbrev Rng := Nat → Nat

/-- The stream after one call of `rand()`. -/
def Rng.next (g : Rng) : Rng := fun n => g (n + 1)

/-- State of the controller, `cat_behavior_t` of `cat-behavior.h` (the texture
handle itself is left out, its size is kept). -/
structure cat_behavior_t (F : Type) where
  x : F
  y : F
  vx : F
  vy : F
  screen_width : F
  screen_height : F
  state : cat_state_t
  state_start_time : Int
  target_x : F
  target_y : F
  base_speed : F
  retreat_speed_multiplier : F
  mouse_avoidance_radius : F
  examine_duration_min : F
  examine_duration_max : F
  wander_change_interval : F
  mouse_x : F
  mouse_y : F
  mouse_nearby : Bool
  texture_width : Nat
  texture_height : Nat

section Model

variable {F : Type} [LinearOrderedField F]

/-- The value `(float)rand() / RAND_MAX` for the next element of the stream. -/
def rand_unit (L : CLib F) (g : Rng) : F :=
  (g 0 : F) / (L.RAND_MAX : F)

/-- Source `cat_behavior_init` (cat-behavior.c lines 24-49); `now` is the
result of `time(NULL)`. -/
def cat_behavior_init (L : CLib F) (screen_width screen_height : Nat)
    (now : Int) (g : Rng) : cat_behavior_t F × Rng :=
  let sw : F := (screen_width : F)
  let sh : F := (screen_height : F)
  let base_speed : F := 30
  let angle : F := rand_unit L g * 2 * L.M_PI
  ({ x := sw * 0.5
     y := sh * 0.5
     vx := L.cosf angle * base_speed
     vy := L.sinf angle * base_speed
     screen_width := sw
     screen_height := sh
     state := CAT_STATE_WANDERING
     state_start_time := now
     target_x := 0
     target_y := 0
     base_speed := base_speed
     retreat_speed_multiplier := 3
     mouse_avoidance_radius := 150
     examine_duration_min := 1.5
     examine_duration_max := 4
     wander_change_interval := 3
     mouse_x := 0
     mouse_y := 0
     mouse_nearby := false
     texture_width := 0
     texture_height := 0 }, g.next)

/-- Source `cat_behavior_set_mouse_position` (cat-behavior.c lines 51-60). -/
def cat_behavior_set_mouse_position (L : CLib F) (cat : cat_behavior_t F)
    (x y : F) : cat_behavior_t F :=
  let dx := cat.x - x
  let dy := cat.y - y
  let distance := L.sqrtf (dx * dx + dy * dy)
  { cat with
    mouse_x := x
    mouse_y := y
    mouse_nearby := decide (distance < cat.mouse_avoidance_radius) && decide (x ≥ 0) }

/-- Source `randf` (cat-behavior.c lines 62-64). -/
def randf (L : CLib F) (g : Rng) (min max : F) : F × Rng :=
  (min + rand_unit L g * (max - min), g.next)

/-- Source `start_examining` (cat-behavior.c lines 66-76). -/
def start_examining (L : CLib F) (cat : cat_behavior_t F) (entry_time : Int)
    (g : Rng) : cat_behavior_t F × Rng :=
  let tx := randf L g 0 cat.screen_width
  let ty := randf L tx.2 0 cat.screen_height
  ({ cat with
     state := CAT_STATE_EXAMINING
     state_start_time := entry_time
     target_x := tx.1
     target_y := ty.1
     vx := 0
     vy := 0 }, ty.2)

/-- Source `start_wandering` (cat-behavior.c lines 78-86). -/
def start_wandering (L : CLib F) (cat : cat_behavior_t F) (entry_time : Int)
    (g : Rng) : cat_behavior_t F × Rng :=
  let angle := randf L g 0 (2 * L.M_PI)
  ({ cat with
     state := CAT_STATE_WANDERING
     state_start_time := entry_time
     vx := L.cosf angle.1 * cat.base_speed
     vy := L.sinf angle.1 * cat.base_speed }, angle.2)

/-- Source `start_retreat` (cat-behavior.c lines 88-107). -/
def start_retreat (L : CLib F) (cat : cat_behavior_t F) (entry_time : Int) :
    cat_behavior_t F :=
  let dx := cat.x - cat.mouse_x
  let dy := cat.y - cat.mouse_y
  let distance := L.sqrtf (dx * dx + dy * dy)
  if distance > 1 then
    let speed := cat.base_speed * cat.retreat_speed_multiplier
    { cat with
      state := CAT_STATE_RETREATING
      state_start_time := entry_time
      vx := (dx / distance) * speed
      vy := (dy / distance) * speed }
  else
    { cat with
      state := CAT_STATE_RETREATING
      state_start_time := entry_time
      vx := cat.base_speed * cat.retreat_speed_multiplier
      vy := 0 }

/-- The state-transition switch of `cat_behavior_tick` (cat-behavior.c lines
110-156).  `&&` is short-circuit: the draw of line 117 is made only when the
dwell time has passed. -/
def tick_transition (L : CLib F) (cat : cat_behavior_t F)
    (current_time entry_time : Int) (g : Rng) : cat_behavior_t F × Rng :=
  let elapsed : F := ((current_time - cat.state_start_time : Int) : F)
  match cat.state with
  | CAT_STATE_WANDERING =>
    if elapsed > cat.wander_change_interval then
      let draw := randf L g 0 1
      if draw.1 < 0.3 then start_examining L cat entry_time draw.2
      else if cat.mouse_nearby then (start_retreat L cat entry_time, draw.2)
      else (cat, draw.2)
    else if cat.mouse_nearby then (start_retreat L cat entry_time, g)
    else (cat, g)
  | CAT_STATE_EXAMINING =>
    let examine_duration := randf L g cat.examine_duration_min cat.examine_duration_max
    if elapsed > examine_duration.1 then start_wandering L cat entry_time examine_duration.2
    else if cat.mouse_nearby then (start_retreat L cat entry_time, examine_duration.2)
    else (cat, examine_duration.2)
  | CAT_STATE_RETREATING =>
    if !cat.mouse_nearby then
      let draw := randf L g 0 1
      if draw.1 < 0.7 then start_wandering L cat entry_time draw.2
      else start_examining L cat entry_time draw.2
    else (cat, g)

/-- Position update of `cat_behavior_tick` (cat-behavior.c lines 159-160). -/
def tick_integrate (cat : cat_behavior_t F) (seconds : F) : cat_behavior_t F :=
  { cat with
    x := cat.x + cat.vx * seconds
    y := cat.y + cat.vy * seconds }

/-- Boundary collision on the x axis (cat-behavior.c lines 164-172); the
second component is whether `bounced` was set. -/
def tick_bounce_x (cat : cat_behavior_t F) : cat_behavior_t F × Bool :=
  if cat.x < 0 then
    ({ cat with x := 0, vx := -cat.vx * 0.7 }, true)
  else if cat.x > cat.screen_width - (cat.texture_width : F) then
    ({ cat with x := cat.screen_width - (cat.texture_width : F), vx := -cat.vx * 0.7 }, true)
  else (cat, false)

/-- Boundary collision on the y axis (cat-behavior.c lines 174-182); the
second component is whether `bounced` was set. -/
def tick_bounce_y (cat : cat_behavior_t F) : cat_behavior_t F × Bool :=
  if cat.y < 0 then
    ({ cat with y := 0, vy := -cat.vy * 0.7 }, true)
  else if cat.y > cat.screen_height - (cat.texture_height : F) then
    ({ cat with y := cat.screen_height - (cat.texture_height : F), vy := -cat.vy * 0.7 }, true)
  else (cat, false)

/-- Boundary collision of `cat_behavior_tick` (cat-behavior.c lines 163-182):
both axes, and the flag `bounced`. -/
def tick_bounce (cat : cat_behavior_t F) : cat_behavior_t F × Bool :=
  let bx := tick_bounce_x cat
  let b_y := tick_bounce_y bx.1
  (b_y.1, bx.2 || b_y.2)

/-- Change of direction after a bounce (cat-behavior.c lines 185-189).  `&&`
is short-circuit: the draws are made only after a bounce in the wandering
state. -/
def tick_perturb (L : CLib F) (cat : cat_behavior_t F) (bounced : Bool)
    (g : Rng) : cat_behavior_t F × Rng :=
  if bounced && decide (cat.state = CAT_STATE_WANDERING) then
    let draw := randf L g 0 1
    if draw.1 < 0.4 then
      let angle := randf L draw.2 0 (2 * L.M_PI)
      ({ cat with
         vx := L.cosf angle.1 * cat.base_speed
         vy := L.sinf angle.1 * cat.base_speed }, angle.2)
    else (cat, draw.2)
  else (cat, g)

/-- Source `cat_behavior_tick` (cat-behavior.c lines 109-190). -/
def cat_behavior_tick (L : CLib F) (cat : cat_behavior_t F) (seconds : F)
    (current_time entry_time : Int) (g : Rng) : cat_behavior_t F × Rng :=
  let t := tick_transition L cat current_time entry_time g
  let b := tick_bounce (tick_integrate t.1 seconds)
  tick_perturb L b.1 b.2 t.2

/-- The state of `cat_behavior_tick` right after the position update of lines
159-160, before the boundary check. -/
def tick_integrated (L : CLib F) (cat : cat_behavior_t F) (seconds : F)
    (current_time entry_time : Int) (g : Rng) : cat_behavior_t F :=
  tick_integrate (tick_transition L cat current_time entry_time g).1 seconds

/-- The value of the local variable `bounced` of `cat_behavior_tick` when line
185 is reached. -/
def tick_bounced (L : CLib F) (cat : cat_behavior_t F) (seconds : F)
    (current_time entry_time : Int) (g : Rng) : Bool :=
  (tick_bounce (tick_integrated L cat seconds current_time entry_time g)).2

/-- Whether the condition of line 185 of `cat_behavior_tick` holds, that is
whether the direction is drawn afresh after a bounce. -/
def tick_perturbed (L : CLib F) (cat : cat_behavior_t F) (seconds : F)
    (current_time entry_time : Int) (g : Rng) : Bool :=
  tick_bounced L cat seconds current_time entry_time g &&
    decide ((tick_transition L cat current_time entry_time g).1.state = CAT_STATE_WANDERING) &&
    decide ((randf L (tick_transition L cat current_time entry_time g).2 0 1).1 < 0.4)

/-- The arguments of one `cat_behavior_tick` call: the frame time, the two
clock readings and the stream of `rand()` results. -/
structure Frame (F : Type) where
  seconds : F
  current_time : Int
  entry_time : Int
  rng : Rng

/-- Source `curious_cat_tick` (curious-cat.c lines 112-120) on the controller
state; `(mx, my)` is what `get_global_mouse_position` returned. -/
def curious_cat_tick (L : CLib F) (cat : cat_behavior_t F) (mx my : F)
    (f : Frame F) : cat_behavior_t F :=
  (cat_behavior_tick L (cat_behavior_set_mouse_position L cat mx my)
    f.seconds f.current_time f.entry_time f.rng).1

/-- A run of `curious_cat_tick` over successive frames in which the pointer
query keeps returning `(mx, my)`. -/
def run_frames (L : CLib F) (cat : cat_behavior_t F) (mx my : F)
    (frames : List (Frame F)) : cat_behavior_t F :=
  frames.foldl (fun c f => curious_cat_tick L c mx my f) cat

/-- A call of the host on the controller. -/
inductive Call (F : Type) where
  | set_mouse_position (x y : F)
  | tick (f : Frame F)

/-- The state after one call. -/
def Call.run (L : CLib F) (cat : cat_behavior_t F) : Call F → cat_behavior_t F
  | Call.set_mouse_position x y => cat_behavior_set_mouse_position L cat x y
  | Call.tick f => (cat_behavior_tick L cat f.seconds f.current_time f.entry_time f.rng).1

/-- The state after a sequence of calls. -/
def run_calls (L : CLib F) (cat : cat_behavior_t F) (calls : List (Call F)) :
    cat_behavior_t F :=
  calls.foldl (Call.run L) cat

/-- Whether the x branch of the boundary check of `cat_behavior_tick` (lines
164-172) was taken. -/
def tick_bounced_x (L : CLib F) (cat : cat_behavior_t F) (seconds : F)
    (current_time entry_time : Int) (g : Rng) : Bool :=
  (tick_bounce_x (tick_integrated L cat seconds current_time entry_time g)).2

/-- Whether the y branch of the boundary check of `cat_behavior_tick` (lines
174-182) was taken. -/
def tick_bounced_y (L : CLib F) (cat : cat_behavior_t F) (seconds : F)
    (current_time entry_time : Int) (g : Rng) : Bool :=
  (tick_bounce_y (tick_bounce_x
    (tick_integrated L cat seconds current_time entry_time g)).1).2

/-- A record kept along a run, about the velocity: how many ticks bounced on
the x axis and on the y axis since the velocity was last assigned (by
`cat_behavior_init`, by an entry action or by the change of direction after a
bounce), and whether that assignment was the one of `cat_behavior_init`. -/
structure VelocityTrace where
  bounces_x : Nat
  bounces_y : Nat
  from_init : Bool
  deriving DecidableEq, Repr

/-- The record of `cat_behavior_init`: no bounce yet. -/
def VelocityTrace.start : VelocityTrace :=
  { bounces_x := 0, bounces_y := 0, from_init := true }

/-- The record after a tick.  A change of direction after the bounce assigns
the velocity last; otherwise an entry action (the state changed) assigned it
before the boundary check, and each axis that bounced is counted. -/
def tick_trace (L : CLib F) (cat : cat_behavior_t F) (seconds : F)
    (current_time entry_time : Int) (g : Rng) (p : VelocityTrace) : VelocityTrace :=
  if tick_perturbed L cat seconds current_time entry_time g then
    { bounces_x := 0, bounces_y := 0, from_init := false }
  else if (tick_transition L cat current_time entry_time g).1.state = cat.state then
    { bounces_x := p.bounces_x
        + (if tick_bounced_x L cat seconds current_time entry_time g then 1 else 0)
      bounces_y := p.bounces_y
        + (if tick_bounced_y L cat seconds current_time entry_time g then 1 else 0)
      from_init := p.from_init }
  else
    { bounces_x := if tick_bounced_x L cat seconds current_time entry_time g then 1 else 0
      bounces_y := if tick_bounced_y L cat seconds current_time entry_time g then 1 else 0
      from_init := false }

/-- The record after one call. -/
def Call.trace (L : CLib F) (cat : cat_behavior_t F) (p : VelocityTrace) :
    Call F → VelocityTrace
  | Call.set_mouse_position _ _ => p
  | Call.tick f => tick_trace L cat f.seconds f.current_time f.entry_time f.rng p

/-- The record after a sequence of calls that starts in state `cat` with
record `p`. -/
def run_trace (L : CLib F) :
    cat_behavior_t F → VelocityTrace → List (Call F) → VelocityTrace
  | _, p, [] => p
  | cat, p, c :: cs => run_trace L (Call.run L cat c) (Call.trace L cat p c) cs

/-- The velocity of `cat` is a vector `(ux, uy)` of squared length `s2` with
the x component multiplied by `-0.7` once for every bounce on the x axis that
`p` records, and likewise for y. -/
def damped_velocity (cat : cat_behavior_t F) (p : VelocityTrace) (s2 : F) : Prop :=
  ∃ ux uy : F, ux * ux + uy * uy = s2 ∧
    cat.vx = (-0.7) ^ p.bounces_x * ux ∧ cat.vy = (-0.7) ^ p.bounces_y * uy

/-- The host's assignment to the configuration fields after
`cat_behavior_init` (curious-cat.c lines 51-56 and 103-106 assign four of
them). -/
def set_config (cat : cat_behavior_t F) (base_speed retreat_speed_multiplier
    mouse_avoidance_radius examine_duration_min examine_duration_max
    wander_change_interval : F) : cat_behavior_t F :=
  { cat with
    base_speed := base_speed
    retreat_speed_multiplier := retreat_speed_multiplier
    mouse_avoidance_radius := mouse_avoidance_radius
    examine_duration_min := examine_duration_min
    examine_duration_max := examine_duration_max
    wander_change_interval := wander_change_interval }

/-- The surface-size update of `curious_cat_render` (curious-cat.c lines
125-132); `width` and `height` are what the host reports for its output. -/
def curious_cat_render_size (cat : cat_behavior_t F) (width height : Nat) :
    cat_behavior_t F :=
  if width > 0 ∧ height > 0 then
    { cat with screen_width := (width : F), screen_height := (height : F) }
  else cat

/-- Source `cat_behavior_load_texture` (cat-behavior.c lines 192-210) on the
controller state; `loaded` is the size of the texture the graphics library
created, `none` when the path is empty or the creation failed. -/
def cat_behavior_load_texture (cat : cat_behavior_t F) (loaded : Option (Nat × Nat)) :
    cat_behavior_t F × Bool :=
  match loaded with
  | none => (cat, false)
  | some size => ({ cat with texture_width := size.1, texture_height := size.2 }, true)

/-- A call of the host on the controller, the changes of surface size, sprite
size and configuration included. -/
inductive HostCall (F : Type) where
  | set_mouse_position (x y : F)
  | tick (f : Frame F)
  | render_size (width height : Nat)
  | load_texture (loaded : Option (Nat × Nat))
  | config (base_speed retreat_speed_multiplier mouse_avoidance_radius
      examine_duration_min examine_duration_max wander_change_interval : F)

/-- The state after one call of the host. -/
def HostCall.run (L : CLib F) (cat : cat_behavior_t F) : HostCall F → cat_behavior_t F
  | HostCall.set_mouse_position x y => cat_behavior_set_mouse_position L cat x y
  | HostCall.tick f =>
    (cat_behavior_tick L cat f.seconds f.current_time f.entry_time f.rng).1
  | HostCall.render_size width height => curious_cat_render_size cat width height
  | HostCall.load_texture loaded => (cat_behavior_load_texture cat loaded).1
  | HostCall.config bs m r emin emax wci => set_config cat bs m r emin emax wci

/-- The state after a sequence of calls of the host. -/
def run_host (L : CLib F) (cat : cat_behavior_t F) (calls : List (HostCall F)) :
    cat_behavior_t F :=
  calls.foldl (HostCall.run L) cat

/-- The square of the length of the velocity. -/
def speed_sq (cat : cat_behavior_t F) : F := cat.vx * cat.vx + cat.vy * cat.vy

end Model

/-! ## A concrete C library over `ℚ`

Used to evaluate the model on concrete inputs. -/

/-- Square root on `ℚ`: the integer square roots of numerator and
denominator; exact on squares of rationals. -/
def qsqrt (q : ℚ) : ℚ := (Nat.sqrt q.num.toNat : ℚ) / (Nat.sqrt q.den : ℚ)

/-- Cosine on `ℚ`: the first coordinate of the point of the unit circle with
half-angle parameter `a / 2`; exact at `0`. -/
def qcos (a : ℚ) : ℚ := (1 - (a / 2) * (a / 2)) / (1 + (a / 2) * (a / 2))

/-- Sine on `ℚ`: the second coordinate of the point of the unit circle with
half-angle parameter `a / 2`; exact at `0`. -/
def qsin (a : ℚ) : ℚ := (2 * (a / 2)) / (1 + (a / 2) * (a / 2))

/-- A C library over `ℚ`, with `RAND_MAX = 2^31 - 1`. -/
def libQ : CLib ℚ :=
  { sqrtf := qsqrt
    cosf := qcos
    sinf := qsin
    M_PI := 355 / 113
    RAND_MAX := 2147483647 }

/-- The stream of `rand()` results that is constantly `r`. -/
def constRng (r : Nat) : Rng := fun _ => r

/-- The state after `cat_behavior_init(100, 100)` at time 0 with first draw 0:
the cat at (50, 50) with velocity (30, 0). -/
def cat_100 : cat_behavior_t ℚ := (cat_behavior_init libQ 100 100 0 (constRng 0)).1

/-- The state after `cat_behavior_init(800, 600)` at time 0 with first draw 0:
the cat at (400, 300) with velocity (30, 0). -/
def cat_800_600 : cat_behavior_t ℚ := (cat_behavior_init libQ 800 600 0 (constRng 0)).1

/-- The state `cat_100` moved far outside the surface, to (-500, 700), with
velocity (-30, 40) and a sprite of 10x20. -/
def cat_outside : cat_behavior_t ℚ :=
  { cat_100 with x := -500, y := 700, vx := -30, vy := 40, texture_width := 10, texture_height := 20 }

/-- The retreat example of the specification: the cat at (100, 100), the
pointer at (150, 100), radius 150, speeds 30 and 3. -/
def cat_retreat_demo : cat_behavior_t ℚ :=
  cat_behavior_set_mouse_position libQ { cat_800_600 with x := 100, y := 100 } 150 100

/-- The state `cat_100` with the pointer exactly on the cat, at (50, 50). -/
def cat_coincident : cat_behavior_t ℚ :=
  cat_behavior_set_mouse_position libQ cat_100 50 50

/-- The bounce example of the specification: the cat at x = 15 with velocity
(-20, 0), wandering, so that one second later x = -5. -/
def cat_bounce_demo : cat_behavior_t ℚ :=
  { cat_100 with x := 15, vx := -20, vy := 0 }

/-- The state `cat_100` after a damped bounce off the right edge: x = 100 and
velocity (-21, 0). -/
def cat_damped : cat_behavior_t ℚ :=
  { cat_100 with x := 100, vx := -21 }

/-- The state `cat_100` after it has entered the examining state at time 4:
the cat at rest at (50, 50), examine target (0, 0). -/
def cat_examining : cat_behavior_t ℚ :=
  { cat_100 with state := CAT_STATE_EXAMINING, state_start_time := 4, vx := 0, vy := 0 }

/-- The state `cat_100` retreating since time 0 with the pointer nearby, at
(60, 50). -/
def cat_retreating : cat_behavior_t ℚ :=
  { cat_100 with
    state := CAT_STATE_RETREATING, vx := -90, vy := 0, mouse_x := 60, mouse_y := 50,
    mouse_nearby := true }

/-- The state `cat_100` after the pointer has been set at (60, 50), at
distance 10: wandering, with `mouse_nearby` set. -/
def cat_pointer_near : cat_behavior_t ℚ :=
  cat_behavior_set_mouse_position libQ cat_100 60 50

/-- The state `cat_100` after the host has set the base speed to 40: the
velocity is still (30, 0). -/
def cat_40 : cat_behavior_t ℚ := set_config cat_100 40 3 150 (3 / 2) 4 3

/-- The state `cat_40` after a damped bounce off the right edge: x = 100 and
velocity (-21, 0). -/
def cat_40_damped : cat_behavior_t ℚ := { cat_40 with x := 100, vx := -21 }

/-- The state `cat_40_damped` one second later, at x = 79. -/
def cat_40_moved : cat_behavior_t ℚ := { cat_40_damped with x := 79 }

/-- The state `cat_40_moved` after it has entered the examining state at time
4. -/
def cat_40_examining : cat_behavior_t ℚ :=
  { cat_40_moved with state := CAT_STATE_EXAMINING, state_start_time := 4, vx := 0, vy := 0 }

/-- The state `cat_40_examining` after it has entered the wandering state
again at time 9 with velocity (40, 0) and moved for half a second. -/
def cat_40_wandering : cat_behavior_t ℚ :=
  { cat_40_examining with
    state := CAT_STATE_WANDERING, state_start_time := 9, vx := 40, vy := 0, x := 99 }

/-- The calls of the wandering example: a tick of two seconds that bounces
off the right edge without a change of direction, a tick of one second, a tick
at time 4 that enters the examining state, and a tick at time 9 that enters
the wandering state again. -/
def wander_demo_calls : List (Call ℚ) :=
  [Call.tick { seconds := 2, current_time := 0, entry_time := 0, rng := constRng 2147483647 },
   Call.tick { seconds := 1, current_time := 0, entry_time := 0, rng := constRng 2147483647 },
   Call.tick { seconds := 1, current_time := 4, entry_time := 4, rng := constRng 0 },
   Call.tick { seconds := 1 / 2, current_time := 9, entry_time := 9, rng := constRng 0 }]

/-- The calls of the retreat example, from the cat at (50, 50): the pointer
is set at (60, 50) and a tick of one second enters the retreating state and
bounces off the left edge; the pointer is lost and a tick at time 5 enters the
examining state; the pointer is set at (0, 60) and a tick of a tenth of a
second enters the retreating state again, without a bounce. -/
def retreat_demo_calls (F : Type) [LinearOrderedField F] : List (Call F) :=
  [Call.set_mouse_position 60 50,
   Call.tick { seconds := 1, current_time := 0, entry_time := 0, rng := constRng 0 },
   Call.set_mouse_position (-1) (-1),
   Call.tick { seconds := 1, current_time := 5, entry_time := 5,
               rng := constRng 2147483647 },
   Call.set_mouse_position 0 60,
   Call.tick { seconds := 1 / 10, current_time := 5, entry_time := 5,
               rng := constRng 2147483647 }]

/-- The state of the retreat example after the first tick: the cat at the left
edge, retreating with the damped velocity (63, 0). -/
def retreat_demo_bounced (F : Type) [LinearOrderedField F] : cat_behavior_t F :=
  { x := 0, y := 50, vx := 63, vy := 0, screen_width := 100, screen_height := 100,
    state := CAT_STATE_RETREATING, state_start_time := 0, target_x := 0, target_y := 0,
    base_speed := 30, retreat_speed_multiplier := 3, mouse_avoidance_radius := 150,
    examine_duration_min := 3 / 2, examine_duration_max := 4, wander_change_interval := 3,
    mouse_x := 60, mouse_y := 50, mouse_nearby := true, texture_width := 0,
    texture_height := 0 }

/-- The state of the retreat example after the second tick: examining since
time 5, at rest, the pointer lost. -/
def retreat_demo_examining (F : Type) [LinearOrderedField F] : cat_behavior_t F :=
  { retreat_demo_bounced F with
    state := CAT_STATE_EXAMINING, state_start_time := 5, vx := 0, vy := 0,
    target_x := 100, target_y := 100, mouse_x := -1, mouse_y := -1, mouse_nearby := false }

/-- The state of the retreat example at the end: retreating again, with the
velocity (0, -90) of the new entry, at (0, 41). -/
def retreat_demo_final (F : Type) [LinearOrderedField F] : cat_behavior_t F :=
  { retreat_demo_examining F with
    state := CAT_STATE_RETREATING, vx := 0, vy := -90, y := 41, mouse_x := 0, mouse_y := 60,
    mouse_nearby := true }

/-- A frame of `seconds` seconds at time 0 in which every `rand()` gives `r`. -/
def frame0 (seconds : ℚ) (r : Nat) : Frame ℚ :=
  { seconds := seconds, current_time := 0, entry_time := 0, rng := constRng r }

/-! # Theorems -/

/-! ## Lemmas on the concrete library -/

theorem qsqrt_mul_self (q : ℚ) (h : 0 ≤ q) : qsqrt (q * q) = q := by
  unfold qsqrt
  rw [Rat.mul_self_num, Rat.mul_self_den]
  have hn : 0 ≤ q.num := Rat.num_nonneg.mpr h
  obtain ⟨n, hn2⟩ := Int.eq_ofNat_of_zero_le hn
  rw [hn2]
  have h3 : (↑n * ↑n : ℤ).toNat = n * n := by
    rw [← Nat.cast_mul]; exact Int.toNat_natCast _
  rw [h3, Nat.sqrt_eq, Nat.sqrt_eq]
  have h4 := Rat.num_div_den q
  rw [hn2] at h4
  simpa using h4

theorem qcos_sq_add_qsin_sq (a : ℚ) : qcos a * qcos a + qsin a * qsin a = 1 := by
  unfold qcos qsin
  generalize a / 2 = t
  have h : (1 + t * t) ≠ 0 := by
    have := mul_self_nonneg t
    linarith
  field_simp
  ring

section Phases

variable {F : Type} [LinearOrderedField F]

/-! ## What each phase of a tick leaves unchanged -/

theorem tick_integrate_state (cat : cat_behavior_t F) (seconds : F) :
    (tick_integrate cat seconds).state = cat.state := rfl

theorem tick_bounce_x_fst_x (cat : cat_behavior_t F) :
    (tick_bounce_x cat).1.x =
      if cat.x < 0 then 0
      else if cat.x > cat.screen_width - (cat.texture_width : F) then
        cat.screen_width - (cat.texture_width : F)
      else cat.x := by
  unfold tick_bounce_x
  split_ifs <;> rfl

theorem tick_bounce_y_fst_y (cat : cat_behavior_t F) :
    (tick_bounce_y cat).1.y =
      if cat.y < 0 then 0
      else if cat.y > cat.screen_height - (cat.texture_height : F) then
        cat.screen_height - (cat.texture_height : F)
      else cat.y := by
  unfold tick_bounce_y
  split_ifs <;> rfl

theorem tick_bounce_fst_x (cat : cat_behavior_t F) :
    (tick_bounce cat).1.x = (tick_bounce_x cat).1.x := by
  unfold tick_bounce tick_bounce_y
  simp only
  split_ifs <;> rfl

theorem tick_bounce_fst_y (cat : cat_behavior_t F) :
    (tick_bounce cat).1.y = (tick_bounce_y (tick_bounce_x cat).1).1.y := rfl

theorem tick_perturb_fst_x (L : CLib F) (cat : cat_behavior_t F) (b : Bool) (g : Rng) :
    (tick_perturb L cat b g).1.x = cat.x := by
  unfold tick_perturb
  dsimp only
  split_ifs <;> rfl

theorem tick_perturb_fst_y (L : CLib F) (cat : cat_behavior_t F) (b : Bool) (g : Rng) :
    (tick_perturb L cat b g).1.y = cat.y := by
  unfold tick_perturb
  dsimp only
  split_ifs <;> rfl

theorem tick_transition_screen (L : CLib F) (cat : cat_behavior_t F)
    (current_time entry_time : Int) (g : Rng) :
    (tick_transition L cat current_time entry_time g).1.screen_width = cat.screen_width ∧
    (tick_transition L cat current_time entry_time g).1.screen_height = cat.screen_height ∧
    (tick_transition L cat current_time entry_time g).1.texture_width = cat.texture_width ∧
    (tick_transition L cat current_time entry_time g).1.texture_height = cat.texture_height := by
  unfold tick_transition start_examining start_wandering start_retreat
  cases cat.state <;> simp only <;> split_ifs <;> exact ⟨rfl, rfl, rfl, rfl⟩

theorem tick_bounce_x_screen (cat : cat_behavior_t F) :
    (tick_bounce_x cat).1.screen_height = cat.screen_height ∧
    (tick_bounce_x cat).1.texture_height = cat.texture_height ∧
    (tick_bounce_x cat).1.y = cat.y := by
  unfold tick_bounce_x
  split_ifs <;> exact ⟨rfl, rfl, rfl⟩

theorem mouse_nearby_false_of_neg (L : CLib F) (cat : cat_behavior_t F) (x y : F)
    (hx : x < 0) : (cat_behavior_set_mouse_position L cat x y).mouse_nearby = false := by
  simp [cat_behavior_set_mouse_position, not_le.mpr hx]

end Phases

section Claims

variable {F : Type} [LinearOrderedField F]

/-- C1: when the surface is at least as large as the sprite, the position after
any `cat_behavior_tick` lies in `[0, screen_width - texture_width]` on the x
axis and in `[0, screen_height - texture_height]` on the y axis, whatever the
state, the frame time, the clock readings and the random draws. -/
theorem tick_position_within_surface (L : CLib F) (cat : cat_behavior_t F)
    (seconds : F) (current_time entry_time : Int) (g : Rng)
    (hw : (cat.texture_width : F) ≤ cat.screen_width)
    (hh : (cat.texture_height : F) ≤ cat.screen_height) :
    0 ≤ (cat_behavior_tick L cat seconds current_time entry_time g).1.x ∧
    (cat_behavior_tick L cat seconds current_time entry_time g).1.x
      ≤ cat.screen_width - (cat.texture_width : F) ∧
    0 ≤ (cat_behavior_tick L cat seconds current_time entry_time g).1.y ∧
    (cat_behavior_tick L cat seconds current_time entry_time g).1.y
      ≤ cat.screen_height - (cat.texture_height : F) := by
  obtain ⟨h1, h2, h3, h4⟩ := tick_transition_screen L cat current_time entry_time g
  unfold cat_behavior_tick
  simp only [tick_perturb_fst_x, tick_perturb_fst_y, tick_bounce_fst_x, tick_bounce_fst_y]
  set c := tick_integrate (tick_transition L cat current_time entry_time g).1 seconds with hc
  have e1 : c.screen_width = cat.screen_width := h1
  have e2 : c.screen_height = cat.screen_height := h2
  have e3 : c.texture_width = cat.texture_width := h3
  have e4 : c.texture_height = cat.texture_height := h4
  obtain ⟨b1, b2, b3⟩ := tick_bounce_x_screen c
  rw [tick_bounce_x_fst_x, tick_bounce_y_fst_y, b1, b2, b3, e1, e2, e3, e4]
  have hw2 : (0 : F) ≤ cat.screen_width - (cat.texture_width : F) := sub_nonneg.mpr hw
  have hh2 : (0 : F) ≤ cat.screen_height - (cat.texture_height : F) := sub_nonneg.mpr hh
  refine ⟨?_, ?_, ?_, ?_⟩ <;> split_ifs <;> linarith

/-- C1 at a concrete input: a 100x100 surface, a 10x20 sprite, the cat far
outside the surface at (-500, 700) with velocity (-30, 40). -/
theorem tick_position_within_surface_witness :
    0 ≤ (cat_behavior_tick libQ cat_outside 1 0 0 (constRng 0)).1.x ∧
    (cat_behavior_tick libQ cat_outside 1 0 0 (constRng 0)).1.x
      ≤ cat_outside.screen_width - (cat_outside.texture_width : ℚ) ∧
    0 ≤ (cat_behavior_tick libQ cat_outside 1 0 0 (constRng 0)).1.y ∧
    (cat_behavior_tick libQ cat_outside 1 0 0 (constRng 0)).1.y
      ≤ cat_outside.screen_height - (cat_outside.texture_height : ℚ) :=
  tick_position_within_surface libQ cat_outside 1 0 0 (constRng 0)
    (by norm_num [cat_outside, cat_100, cat_behavior_init])
    (by norm_num [cat_outside, cat_100, cat_behavior_init])

/-- C2, as stated, fails: with the cat at (50, 50) and the default radius 150,
the pointer position (50, -1) has a negative coordinate and still sets
`mouse_nearby` (distance 51, and only `mouse_x >= 0` is tested). -/
theorem set_mouse_position_negative_y_nearby :
    ((50 : ℚ) < 0 ∨ (-1 : ℚ) < 0) ∧
    (cat_behavior_set_mouse_position libQ cat_100 50 (-1)).mouse_nearby = true := by
  have h : qsqrt 2601 = 51 := by
    have h0 := qsqrt_mul_self 51 (by norm_num)
    norm_num at h0
    exact h0
  refine ⟨Or.inr (by norm_num), ?_⟩
  norm_num [cat_behavior_set_mouse_position, cat_100, cat_behavior_init, libQ, h]

/-- C2 (amended): after `cat_behavior_set_mouse_position(x, y)` the flag
`mouse_nearby` is false whenever `x < 0`, whatever the distance and the
radius; when `x >= 0` the flag is true exactly when the computed distance is
below the radius, whatever the sign of `y`. -/
theorem set_mouse_position_negative_x (L : CLib F) (cat : cat_behavior_t F) (x y : F) :
    (x < 0 → (cat_behavior_set_mouse_position L cat x y).mouse_nearby = false) ∧
    (0 ≤ x → ((cat_behavior_set_mouse_position L cat x y).mouse_nearby = true ↔
      L.sqrtf ((cat.x - x) * (cat.x - x) + (cat.y - y) * (cat.y - y))
        < cat.mouse_avoidance_radius)) := by
  constructor
  · intro hx
    simp [cat_behavior_set_mouse_position, not_le.mpr hx]
  · intro hx
    simp [cat_behavior_set_mouse_position, hx]

/-- C2 (amended) at concrete inputs: the pointer at (-1, 50), one unit left of
the surface and 51 from the cat, gives `mouse_nearby = false`. -/
theorem set_mouse_position_negative_x_witness :
    (-1 : ℚ) < 0 ∧ (cat_behavior_set_mouse_position libQ cat_100 (-1) 50).mouse_nearby = false :=
  ⟨by norm_num, (set_mouse_position_negative_x libQ cat_100 (-1) 50).1 (by norm_num)⟩

/-- C3: for a pointer position `(x, y)` with `x >= 0` and `y >= 0`,
`cat_behavior_set_mouse_position` stores `(x, y)` and sets `mouse_nearby`
exactly when the euclidean distance `d` between pointer and cat (the value
`sqrtf` returns, with `d >= 0` and `d * d = dx * dx + dy * dy`) is strictly
below `mouse_avoidance_radius`; a distance equal to the radius gives false.
In terms of squares: the flag is set iff the radius is positive and
`dx * dx + dy * dy < radius * radius`. -/
theorem set_mouse_position_nearby_iff (L : CLib F) (cat : cat_behavior_t F) (x y d : F)
    (hx : 0 ≤ x) (hy : 0 ≤ y) (hd : 0 ≤ d)
    (hdd : d * d = (cat.x - x) * (cat.x - x) + (cat.y - y) * (cat.y - y))
    (hsqrt : L.sqrtf ((cat.x - x) * (cat.x - x) + (cat.y - y) * (cat.y - y)) = d) :
    (cat_behavior_set_mouse_position L cat x y).mouse_x = x ∧
    (cat_behavior_set_mouse_position L cat x y).mouse_y = y ∧
    ((cat_behavior_set_mouse_position L cat x y).mouse_nearby = true ↔
      d < cat.mouse_avoidance_radius) ∧
    (d = cat.mouse_avoidance_radius →
      (cat_behavior_set_mouse_position L cat x y).mouse_nearby = false) ∧
    ((cat_behavior_set_mouse_position L cat x y).mouse_nearby = true ↔
      (0 < cat.mouse_avoidance_radius ∧
        (cat.x - x) * (cat.x - x) + (cat.y - y) * (cat.y - y)
          < cat.mouse_avoidance_radius * cat.mouse_avoidance_radius)) := by
  have _ := hy
  have key : (cat_behavior_set_mouse_position L cat x y).mouse_nearby = true ↔
      d < cat.mouse_avoidance_radius := by
    simp [cat_behavior_set_mouse_position, hx, hsqrt]
  refine ⟨rfl, rfl, key, ?_, ?_⟩
  · intro h
    have hn : ¬ (d < cat.mouse_avoidance_radius) := by rw [h]; exact lt_irrefl _
    cases hb : (cat_behavior_set_mouse_position L cat x y).mouse_nearby
    · rfl
    · exact absurd (key.mp hb) hn
  · rw [key, ← hdd]
    constructor
    · intro h
      exact ⟨lt_of_le_of_lt hd h, mul_self_lt_mul_self hd h⟩
    · rintro ⟨hr, h⟩
      by_contra hc
      have h2 := mul_self_le_mul_self hr.le (not_lt.mp hc)
      exact absurd h (not_lt.mpr h2)

/-- C3 at a concrete input: the cat at (400, 300), the pointer at (490, 420),
at distance 150, which is the default radius. -/
theorem set_mouse_position_nearby_iff_witness :
    ((0 : ℚ) ≤ 490 ∧ (0 : ℚ) ≤ 420) ∧
    (cat_behavior_set_mouse_position libQ cat_800_600 490 420).mouse_nearby = false := by
  have h : qsqrt 22500 = 150 := by
    have h0 := qsqrt_mul_self 150 (by norm_num)
    norm_num at h0
    exact h0
  refine ⟨⟨by norm_num, by norm_num⟩, ?_⟩
  exact (set_mouse_position_nearby_iff libQ cat_800_600 490 420 150 (by norm_num) (by norm_num)
    (by norm_num) (by norm_num [cat_800_600, cat_behavior_init])
    (by norm_num [cat_800_600, cat_behavior_init, libQ, h])).2.2.2.1
    (by norm_num [cat_800_600, cat_behavior_init])

/-- C4: when the distance `d` between cat and pointer, as `sqrtf` returns it
(`d * d = dx * dx + dy * dy`), is greater than 1, `start_retreat` enters the
retreating state with velocity
`((x - mouse_x) / d, (y - mouse_y) / d) * (base_speed * retreat_speed_multiplier)`.
The length of that velocity is `|base_speed * retreat_speed_multiplier|`, and
for a positive speed it is a positive multiple of the vector from the pointer
to the cat. -/
theorem start_retreat_velocity (L : CLib F) (cat : cat_behavior_t F) (entry_time : Int)
    (d : F)
    (hsqrt : L.sqrtf ((cat.x - cat.mouse_x) * (cat.x - cat.mouse_x)
      + (cat.y - cat.mouse_y) * (cat.y - cat.mouse_y)) = d)
    (hdd : d * d = (cat.x - cat.mouse_x) * (cat.x - cat.mouse_x)
      + (cat.y - cat.mouse_y) * (cat.y - cat.mouse_y))
    (hd : 1 < d) :
    (start_retreat L cat entry_time).state = CAT_STATE_RETREATING ∧
    (start_retreat L cat entry_time).vx
      = (cat.x - cat.mouse_x) / d * (cat.base_speed * cat.retreat_speed_multiplier) ∧
    (start_retreat L cat entry_time).vy
      = (cat.y - cat.mouse_y) / d * (cat.base_speed * cat.retreat_speed_multiplier) ∧
    speed_sq (start_retreat L cat entry_time)
      = |cat.base_speed * cat.retreat_speed_multiplier|
        * |cat.base_speed * cat.retreat_speed_multiplier| ∧
    (0 < cat.base_speed * cat.retreat_speed_multiplier →
      ∃ k : F, 0 < k ∧
        (start_retreat L cat entry_time).vx = k * (cat.x - cat.mouse_x) ∧
        (start_retreat L cat entry_time).vy = k * (cat.y - cat.mouse_y)) := by
  have hd0 : d ≠ 0 := by
    intro h0
    rw [h0] at hd
    exact absurd hd (by norm_num)
  have hvx : (start_retreat L cat entry_time).vx
      = (cat.x - cat.mouse_x) / d * (cat.base_speed * cat.retreat_speed_multiplier) := by
    simp [start_retreat, hsqrt, hd]
  have hvy : (start_retreat L cat entry_time).vy
      = (cat.y - cat.mouse_y) / d * (cat.base_speed * cat.retreat_speed_multiplier) := by
    simp [start_retreat, hsqrt, hd]
  refine ⟨?_, hvx, hvy, ?_, ?_⟩
  · simp [start_retreat, hsqrt, hd]
  · unfold speed_sq
    rw [hvx, hvy, abs_mul_abs_self]
    have e : (cat.x - cat.mouse_x) / d * (cat.base_speed * cat.retreat_speed_multiplier)
          * ((cat.x - cat.mouse_x) / d * (cat.base_speed * cat.retreat_speed_multiplier))
        + (cat.y - cat.mouse_y) / d * (cat.base_speed * cat.retreat_speed_multiplier)
          * ((cat.y - cat.mouse_y) / d * (cat.base_speed * cat.retreat_speed_multiplier))
        = ((cat.x - cat.mouse_x) * (cat.x - cat.mouse_x)
            + (cat.y - cat.mouse_y) * (cat.y - cat.mouse_y)) / (d * d)
          * (cat.base_speed * cat.retreat_speed_multiplier
            * (cat.base_speed * cat.retreat_speed_multiplier)) := by
      field_simp
      ring
    rw [e, ← hdd, div_self (mul_ne_zero hd0 hd0), one_mul]
  · intro hs
    refine ⟨cat.base_speed * cat.retreat_speed_multiplier / d,
      div_pos hs (lt_trans one_pos hd), ?_, ?_⟩
    · rw [hvx]
      field_simp
      ring
    · rw [hvy]
      field_simp
      ring

/-- C4 at the input of the specification: the cat at (100, 100), the pointer
at (150, 100), radius 150, speeds 30 and 3: the distance is 50 and the retreat
velocity is (-90, 0). -/
theorem start_retreat_velocity_witness :
    (1 : ℚ) < 50 ∧
    (start_retreat libQ cat_retreat_demo 0).vx = -90 ∧
    (start_retreat libQ cat_retreat_demo 0).vy = 0 := by
  have h : qsqrt 2500 = 50 := by
    have h0 := qsqrt_mul_self 50 (by norm_num)
    norm_num at h0
    exact h0
  obtain ⟨-, hvx, hvy, -, -⟩ := start_retreat_velocity libQ cat_retreat_demo 0 50
    (by norm_num [cat_retreat_demo, cat_behavior_set_mouse_position, cat_800_600,
      cat_behavior_init, libQ, h])
    (by norm_num [cat_retreat_demo, cat_behavior_set_mouse_position, cat_800_600,
      cat_behavior_init])
    (by norm_num)
  refine ⟨by norm_num, ?_, ?_⟩
  · rw [hvx]
    norm_num [cat_retreat_demo, cat_behavior_set_mouse_position, cat_800_600, cat_behavior_init]
  · rw [hvy]
    norm_num [cat_retreat_demo, cat_behavior_set_mouse_position, cat_800_600, cat_behavior_init]

/-- C5: when the distance between cat and pointer, as `sqrtf` returns it, is
at most 1 (coincident positions included), `start_retreat` sets the velocity
to `(base_speed * retreat_speed_multiplier, 0)`; the whole resulting state is
given by an expression in which the distance does not occur, so nothing is
divided by it. -/
theorem start_retreat_degenerate (L : CLib F) (cat : cat_behavior_t F) (entry_time : Int)
    (hd : L.sqrtf ((cat.x - cat.mouse_x) * (cat.x - cat.mouse_x)
      + (cat.y - cat.mouse_y) * (cat.y - cat.mouse_y)) ≤ 1) :
    (start_retreat L cat entry_time).vx = cat.base_speed * cat.retreat_speed_multiplier ∧
    (start_retreat L cat entry_time).vy = 0 ∧
    start_retreat L cat entry_time =
      { cat with
        state := CAT_STATE_RETREATING
        state_start_time := entry_time
        vx := cat.base_speed * cat.retreat_speed_multiplier
        vy := 0 } := by
  have e : start_retreat L cat entry_time =
      { cat with
        state := CAT_STATE_RETREATING
        state_start_time := entry_time
        vx := cat.base_speed * cat.retreat_speed_multiplier
        vy := 0 } := by
    unfold start_retreat
    dsimp only
    rw [if_neg (not_lt.mpr hd)]
  refine ⟨?_, ?_, e⟩
  · rw [e]
  · rw [e]

/-- C5 at a concrete input: cat and pointer both at (50, 50), distance 0. -/
theorem start_retreat_degenerate_witness :
    libQ.sqrtf ((cat_coincident.x - cat_coincident.mouse_x) * (cat_coincident.x - cat_coincident.mouse_x)
      + (cat_coincident.y - cat_coincident.mouse_y) * (cat_coincident.y - cat_coincident.mouse_y)) ≤ 1 ∧
    (start_retreat libQ cat_coincident 0).vx = 90 ∧
    (start_retreat libQ cat_coincident 0).vy = 0 := by
  have h0 : qsqrt 0 = 0 := by
    have h1 := qsqrt_mul_self 0 (le_refl 0)
    norm_num at h1
    exact h1
  have hd : libQ.sqrtf ((cat_coincident.x - cat_coincident.mouse_x) * (cat_coincident.x - cat_coincident.mouse_x)
      + (cat_coincident.y - cat_coincident.mouse_y) * (cat_coincident.y - cat_coincident.mouse_y)) ≤ 1 := by
    norm_num [cat_coincident, cat_behavior_set_mouse_position, cat_100, cat_behavior_init, libQ, h0]
  obtain ⟨hvx, hvy, -⟩ := start_retreat_degenerate libQ cat_coincident 0 hd
  refine ⟨hd, ?_, hvy⟩
  rw [hvx]
  norm_num [cat_coincident, cat_behavior_set_mouse_position, cat_100, cat_behavior_init]

/-! ## The state and velocity after the phases of a tick -/

theorem start_retreat_state (L : CLib F) (cat : cat_behavior_t F) (entry_time : Int) :
    (start_retreat L cat entry_time).state = CAT_STATE_RETREATING := by
  unfold start_retreat
  dsimp only
  split_ifs <;> rfl

theorem tick_bounce_x_state (cat : cat_behavior_t F) :
    (tick_bounce_x cat).1.state = cat.state := by
  unfold tick_bounce_x
  split_ifs <;> rfl

theorem tick_bounce_y_state (cat : cat_behavior_t F) :
    (tick_bounce_y cat).1.state = cat.state := by
  unfold tick_bounce_y
  split_ifs <;> rfl

theorem tick_bounce_state (cat : cat_behavior_t F) :
    (tick_bounce cat).1.state = cat.state := by
  unfold tick_bounce
  dsimp only
  rw [tick_bounce_y_state, tick_bounce_x_state]

theorem tick_perturb_state (L : CLib F) (cat : cat_behavior_t F) (b : Bool) (g : Rng) :
    (tick_perturb L cat b g).1.state = cat.state := by
  unfold tick_perturb
  dsimp only
  split_ifs <;> rfl

theorem cat_behavior_tick_state (L : CLib F) (cat : cat_behavior_t F) (seconds : F)
    (current_time entry_time : Int) (g : Rng) :
    (cat_behavior_tick L cat seconds current_time entry_time g).1.state
      = (tick_transition L cat current_time entry_time g).1.state := by
  unfold cat_behavior_tick
  dsimp only
  rw [tick_perturb_state, tick_bounce_state, tick_integrate_state]

theorem tick_perturb_of_not (L : CLib F) (cat : cat_behavior_t F) (b : Bool) (g : Rng)
    (h : b = false ∨ cat.state ≠ CAT_STATE_WANDERING ∨ (0.4 : F) ≤ (randf L g 0 1).1) :
    (tick_perturb L cat b g).1 = cat := by
  unfold tick_perturb
  dsimp only
  split_ifs with h1 h2
  · exfalso
    simp only [Bool.and_eq_true, decide_eq_true_eq] at h1
    rcases h with h | h | h
    · rw [h] at h1
      exact absurd h1.1 (by decide)
    · exact h h1.2
    · exact absurd h2 (not_lt.mpr h)
  · rfl
  · rfl

theorem tick_bounce_x_fst_vx (cat : cat_behavior_t F) :
    (tick_bounce_x cat).1.vx =
      if cat.x < 0 then -0.7 * cat.vx
      else if cat.x > cat.screen_width - (cat.texture_width : F) then -0.7 * cat.vx
      else cat.vx := by
  unfold tick_bounce_x
  split_ifs
  · show -cat.vx * 0.7 = -0.7 * cat.vx
    ring
  · show -cat.vx * 0.7 = -0.7 * cat.vx
    ring
  · rfl

theorem tick_bounce_y_fst_vy (cat : cat_behavior_t F) :
    (tick_bounce_y cat).1.vy =
      if cat.y < 0 then -0.7 * cat.vy
      else if cat.y > cat.screen_height - (cat.texture_height : F) then -0.7 * cat.vy
      else cat.vy := by
  unfold tick_bounce_y
  split_ifs
  · show -cat.vy * 0.7 = -0.7 * cat.vy
    ring
  · show -cat.vy * 0.7 = -0.7 * cat.vy
    ring
  · rfl

theorem tick_bounce_y_frame (cat : cat_behavior_t F) :
    (tick_bounce_y cat).1.x = cat.x ∧ (tick_bounce_y cat).1.vx = cat.vx := by
  unfold tick_bounce_y
  split_ifs <;> exact ⟨rfl, rfl⟩

theorem tick_bounce_x_frame (cat : cat_behavior_t F) :
    (tick_bounce_x cat).1.y = cat.y ∧ (tick_bounce_x cat).1.vy = cat.vy ∧
    (tick_bounce_x cat).1.screen_height = cat.screen_height ∧
    (tick_bounce_x cat).1.texture_height = cat.texture_height := by
  unfold tick_bounce_x
  split_ifs <;> exact ⟨rfl, rfl, rfl, rfl⟩

theorem tick_integrated_screen (L : CLib F) (cat : cat_behavior_t F) (seconds : F)
    (current_time entry_time : Int) (g : Rng) :
    (tick_integrated L cat seconds current_time entry_time g).screen_width = cat.screen_width ∧
    (tick_integrated L cat seconds current_time entry_time g).screen_height = cat.screen_height ∧
    (tick_integrated L cat seconds current_time entry_time g).texture_width = cat.texture_width ∧
    (tick_integrated L cat seconds current_time entry_time g).texture_height
      = cat.texture_height :=
  tick_transition_screen L cat current_time entry_time g

/-- C6: in every tick, on each axis on its own, the coordinate after the
position update is set to 0 when it is below 0 and, otherwise, to
`screen size - texture size` when it is above that bound, and is left as it
is in the remaining case; when the change of direction after a bounce does
not fire (the state is not wandering, or the draw is at least 0.4), the final
velocity component on the axis is `-0.7` times its value before the bounce in
the first two cases and is unchanged in the third. -/
theorem tick_boundary_bounce (L : CLib F) (cat : cat_behavior_t F) (seconds : F)
    (current_time entry_time : Int) (g : Rng) :
    (cat_behavior_tick L cat seconds current_time entry_time g).1.x =
      (if (tick_integrated L cat seconds current_time entry_time g).x < 0 then 0
       else if (tick_integrated L cat seconds current_time entry_time g).x
          > cat.screen_width - (cat.texture_width : F) then
        cat.screen_width - (cat.texture_width : F)
       else (tick_integrated L cat seconds current_time entry_time g).x) ∧
    (cat_behavior_tick L cat seconds current_time entry_time g).1.y =
      (if (tick_integrated L cat seconds current_time entry_time g).y < 0 then 0
       else if (tick_integrated L cat seconds current_time entry_time g).y
          > cat.screen_height - (cat.texture_height : F) then
        cat.screen_height - (cat.texture_height : F)
       else (tick_integrated L cat seconds current_time entry_time g).y) ∧
    ((tick_integrated L cat seconds current_time entry_time g).state ≠ CAT_STATE_WANDERING ∨
      (0.4 : F) ≤ (randf L (tick_transition L cat current_time entry_time g).2 0 1).1 →
      (cat_behavior_tick L cat seconds current_time entry_time g).1.vx =
        (if (tick_integrated L cat seconds current_time entry_time g).x < 0 then
          -0.7 * (tick_integrated L cat seconds current_time entry_time g).vx
         else if (tick_integrated L cat seconds current_time entry_time g).x
            > cat.screen_width - (cat.texture_width : F) then
          -0.7 * (tick_integrated L cat seconds current_time entry_time g).vx
         else (tick_integrated L cat seconds current_time entry_time g).vx) ∧
      (cat_behavior_tick L cat seconds current_time entry_time g).1.vy =
        (if (tick_integrated L cat seconds current_time entry_time g).y < 0 then
          -0.7 * (tick_integrated L cat seconds current_time entry_time g).vy
         else if (tick_integrated L cat seconds current_time entry_time g).y
            > cat.screen_height - (cat.texture_height : F) then
          -0.7 * (tick_integrated L cat seconds current_time entry_time g).vy
         else (tick_integrated L cat seconds current_time entry_time g).vy)) := by
  obtain ⟨e1, e2, e3, e4⟩ := tick_integrated_screen L cat seconds current_time entry_time g
  have hx : (cat_behavior_tick L cat seconds current_time entry_time g).1.x
      = (tick_bounce_x (tick_integrated L cat seconds current_time entry_time g)).1.x := by
    unfold cat_behavior_tick
    dsimp only
    rw [tick_perturb_fst_x, tick_bounce_fst_x]
    rfl
  have hy : (cat_behavior_tick L cat seconds current_time entry_time g).1.y
      = (tick_bounce_y (tick_bounce_x
          (tick_integrated L cat seconds current_time entry_time g)).1).1.y := by
    unfold cat_behavior_tick
    dsimp only
    rw [tick_perturb_fst_y, tick_bounce_fst_y]
    rfl
  obtain ⟨f1, f2, f3, f4⟩ :=
    tick_bounce_x_frame (tick_integrated L cat seconds current_time entry_time g)
  refine ⟨?_, ?_, ?_⟩
  · rw [hx, tick_bounce_x_fst_x, e1, e3]
  · rw [hy, tick_bounce_y_fst_y, f1, f3, f4, e2, e4]
  · intro hnp
    have hp : (cat_behavior_tick L cat seconds current_time entry_time g).1
        = (tick_bounce (tick_integrated L cat seconds current_time entry_time g)).1 := by
      unfold cat_behavior_tick
      dsimp only
      apply tick_perturb_of_not
      right
      rw [tick_bounce_state]
      exact hnp
    rw [hp]
    constructor
    · show (tick_bounce_y (tick_bounce_x
          (tick_integrated L cat seconds current_time entry_time g)).1).1.vx = _
      rw [(tick_bounce_y_frame _).2, tick_bounce_x_fst_vx, e1, e3]
    · show (tick_bounce_y (tick_bounce_x
          (tick_integrated L cat seconds current_time entry_time g)).1).1.vy = _
      rw [tick_bounce_y_fst_vy, f1, f2, f3, f4, e2, e4]

/-- C6 at the input of the specification: the position update takes the cat
from x = 15 with vx = -20 to x = -5; the tick ends with x = 0 and vx = 14 (the
draw for the change of direction is 1, so it does not fire). -/
theorem tick_boundary_bounce_witness :
    (tick_integrated libQ cat_bounce_demo 1 0 0 (constRng 2147483647)).x = -5 ∧
    (tick_integrated libQ cat_bounce_demo 1 0 0 (constRng 2147483647)).vx = -20 ∧
    (0.4 : ℚ) ≤ (randf libQ
      (tick_transition libQ cat_bounce_demo 0 0 (constRng 2147483647)).2 0 1).1 ∧
    (cat_behavior_tick libQ cat_bounce_demo 1 0 0 (constRng 2147483647)).1.x = 0 ∧
    (cat_behavior_tick libQ cat_bounce_demo 1 0 0 (constRng 2147483647)).1.vx = 14 := by
  have hpx : (tick_integrated libQ cat_bounce_demo 1 0 0 (constRng 2147483647)).x = -5 := by
    norm_num [tick_integrated, tick_integrate, tick_transition, cat_bounce_demo, cat_100,
      cat_behavior_init]
  have hpv : (tick_integrated libQ cat_bounce_demo 1 0 0 (constRng 2147483647)).vx = -20 := by
    norm_num [tick_integrated, tick_integrate, tick_transition, cat_bounce_demo, cat_100,
      cat_behavior_init]
  have hdraw : (0.4 : ℚ) ≤ (randf libQ
      (tick_transition libQ cat_bounce_demo 0 0 (constRng 2147483647)).2 0 1).1 := by
    norm_num [tick_transition, cat_bounce_demo, cat_100, cat_behavior_init, randf, rand_unit,
      constRng, libQ]
  obtain ⟨hx, -, hv⟩ :=
    tick_boundary_bounce libQ cat_bounce_demo 1 0 0 (constRng 2147483647)
  refine ⟨hpx, hpv, hdraw, ?_, ?_⟩
  · rw [hx, hpx]
    norm_num
  · rw [(hv (Or.inr hdraw)).1, hpx, hpv]
    norm_num

theorem start_examining_state (L : CLib F) (cat : cat_behavior_t F) (entry_time : Int)
    (g : Rng) : (start_examining L cat entry_time g).1.state = CAT_STATE_EXAMINING := rfl

theorem start_wandering_state (L : CLib F) (cat : cat_behavior_t F) (entry_time : Int)
    (g : Rng) : (start_wandering L cat entry_time g).1.state = CAT_STATE_WANDERING := rfl

theorem randf_zero_one (L : CLib F) (g : Rng) : (randf L g 0 1).1 = rand_unit L g := by
  unfold randf
  simp

/-- C7: from the wandering state, the state after `cat_behavior_tick` is
examining exactly when the dwell time `current_time - state_start_time`
exceeds `wander_change_interval` and the draw `randf(0, 1)`, which is
`(float)rand() / RAND_MAX` for the next `rand()`, is below 0.3; in particular
never while the dwell time is at most `wander_change_interval`. -/
theorem wandering_to_examining_iff (L : CLib F) (cat : cat_behavior_t F) (seconds : F)
    (current_time entry_time : Int) (g : Rng)
    (hw : cat.state = CAT_STATE_WANDERING) :
    ((cat_behavior_tick L cat seconds current_time entry_time g).1.state = CAT_STATE_EXAMINING ↔
      (((current_time - cat.state_start_time : Int) : F) > cat.wander_change_interval ∧
        (randf L g 0 1).1 < 0.3)) ∧
    (randf L g 0 1).1 = rand_unit L g ∧
    (((current_time - cat.state_start_time : Int) : F) ≤ cat.wander_change_interval →
      (cat_behavior_tick L cat seconds current_time entry_time g).1.state
        ≠ CAT_STATE_EXAMINING) := by
  have key : ((cat_behavior_tick L cat seconds current_time entry_time g).1.state
        = CAT_STATE_EXAMINING ↔
      (((current_time - cat.state_start_time : Int) : F) > cat.wander_change_interval ∧
        (randf L g 0 1).1 < 0.3)) := by
    rw [cat_behavior_tick_state]
    unfold tick_transition
    rw [hw]
    dsimp only
    split_ifs with h1 h2 h3 h4
    · exact ⟨fun _ => ⟨h1, h2⟩, fun _ => rfl⟩
    · rw [start_retreat_state]
      exact ⟨fun h => absurd h (by decide), fun h => absurd h.2 h2⟩
    · rw [hw]
      exact ⟨fun h => absurd h (by decide), fun h => absurd h.2 h2⟩
    · rw [start_retreat_state]
      exact ⟨fun h => absurd h (by decide), fun h => absurd h.1 h1⟩
    · rw [hw]
      exact ⟨fun h => absurd h (by decide), fun h => absurd h.1 h1⟩
  refine ⟨key, randf_zero_one L g, ?_⟩
  intro hle hex
  exact absurd (key.mp hex).1 (not_lt.mpr hle)

/-- C7 at a concrete input: the cat of `cat_100` (wandering since time 0),
ticked at time 4 with draw 0: dwell time 4 > 3 and draw 0 < 0.3, and the
state after the tick is examining. -/
theorem wandering_to_examining_iff_witness :
    cat_100.state = CAT_STATE_WANDERING ∧
    (cat_behavior_tick libQ cat_100 1 4 4 (constRng 0)).1.state = CAT_STATE_EXAMINING := by
  have hw : cat_100.state = CAT_STATE_WANDERING := rfl
  refine ⟨hw, ?_⟩
  apply (wandering_to_examining_iff libQ cat_100 1 4 4 (constRng 0) hw).1.mpr
  norm_num [cat_100, cat_behavior_init, randf, rand_unit, constRng, libQ]

/-! ## Runs without a pointer -/

theorem set_mouse_position_state (L : CLib F) (cat : cat_behavior_t F) (x y : F) :
    (cat_behavior_set_mouse_position L cat x y).state = cat.state := rfl

theorem tick_transition_not_retreating (L : CLib F) (cat : cat_behavior_t F)
    (current_time entry_time : Int) (g : Rng)
    (hs : cat.state ≠ CAT_STATE_RETREATING) (hm : cat.mouse_nearby = false) :
    (tick_transition L cat current_time entry_time g).1.state ≠ CAT_STATE_RETREATING := by
  unfold tick_transition
  cases hst : cat.state
  · dsimp only
    rw [hm]
    simp only [Bool.false_eq_true, if_false]
    split_ifs
    · rw [start_examining_state]
      decide
    · rw [hst]
      decide
    · rw [hst]
      decide
  · dsimp only
    rw [hm]
    simp only [Bool.false_eq_true, if_false]
    split_ifs
    · rw [start_wandering_state]
      decide
    · rw [hst]
      decide
  · exact absurd hst hs

theorem curious_cat_tick_not_retreating (L : CLib F) (cat : cat_behavior_t F) (mx my : F)
    (f : Frame F) (hmx : mx < 0) (hs : cat.state ≠ CAT_STATE_RETREATING) :
    (curious_cat_tick L cat mx my f).state ≠ CAT_STATE_RETREATING := by
  unfold curious_cat_tick
  rw [cat_behavior_tick_state]
  apply tick_transition_not_retreating
  · exact hs
  · exact (mouse_nearby_false_of_neg L cat mx my hmx)

theorem run_frames_not_retreating (L : CLib F) (mx my : F) (hmx : mx < 0)
    (frames : List (Frame F)) :
    ∀ cat : cat_behavior_t F, cat.state ≠ CAT_STATE_RETREATING →
      (run_frames L cat mx my frames).state ≠ CAT_STATE_RETREATING := by
  induction frames with
  | nil => intro cat hs; exact hs
  | cons f fs ih =>
    intro cat hs
    exact ih _ (curious_cat_tick_not_retreating L cat mx my f hmx hs)

/-- C8: start with `cat_behavior_init` on any surface and run any number of
frames, each one `cat_behavior_set_mouse_position(-1, -1)` followed by
`cat_behavior_tick`; whatever the frame times, the clock readings and the
random draws, the state after each tick (after the first `n` frames, for
every `n`) is wandering or examining, never retreating. -/
theorem no_retreat_without_pointer (L : CLib F) (screen_width screen_height : Nat)
    (now : Int) (g : Rng) (frames : List (Frame F)) (n : Nat) :
    ((run_frames L (cat_behavior_init L screen_width screen_height now g).1 (-1) (-1)
        (frames.take n)).state = CAT_STATE_WANDERING ∨
      (run_frames L (cat_behavior_init L screen_width screen_height now g).1 (-1) (-1)
        (frames.take n)).state = CAT_STATE_EXAMINING) ∧
    (run_frames L (cat_behavior_init L screen_width screen_height now g).1 (-1) (-1)
        (frames.take n)).state ≠ CAT_STATE_RETREATING := by
  have h := run_frames_not_retreating L (-1) (-1) (by norm_num) (frames.take n)
    (cat_behavior_init L screen_width screen_height now g).1
    (by simp [cat_behavior_init])
  refine ⟨?_, h⟩
  cases hst : (run_frames L (cat_behavior_init L screen_width screen_height now g).1 (-1) (-1)
        (frames.take n)).state
  · exact Or.inl rfl
  · exact Or.inr rfl
  · exact absurd hst h

/-! ## The velocity through a tick -/

theorem tick_bounce_x_of_not_bounced (cat : cat_behavior_t F)
    (h : (tick_bounce_x cat).2 = false) : (tick_bounce_x cat).1 = cat := by
  unfold tick_bounce_x at h ⊢
  split_ifs at h ⊢
  rfl

theorem tick_bounce_y_of_not_bounced (cat : cat_behavior_t F)
    (h : (tick_bounce_y cat).2 = false) : (tick_bounce_y cat).1 = cat := by
  unfold tick_bounce_y at h ⊢
  split_ifs at h ⊢
  rfl

theorem tick_bounce_of_not_bounced (cat : cat_behavior_t F)
    (h : (tick_bounce cat).2 = false) : (tick_bounce cat).1 = cat := by
  unfold tick_bounce at h ⊢
  dsimp only at h ⊢
  rw [Bool.or_eq_false_iff] at h
  have hx := tick_bounce_x_of_not_bounced cat h.1
  have h2 := h.2
  rw [hx] at h2 ⊢
  exact tick_bounce_y_of_not_bounced cat h2

theorem cat_behavior_tick_of_not_bounced (L : CLib F) (cat : cat_behavior_t F) (seconds : F)
    (current_time entry_time : Int) (g : Rng)
    (h : tick_bounced L cat seconds current_time entry_time g = false) :
    (cat_behavior_tick L cat seconds current_time entry_time g).1
      = tick_integrated L cat seconds current_time entry_time g := by
  unfold tick_bounced at h
  unfold cat_behavior_tick
  unfold tick_integrated at h ⊢
  dsimp only
  rw [tick_perturb_of_not L _ _ _ (Or.inl h)]
  exact tick_bounce_of_not_bounced _ h

theorem tick_transition_speeds (L : CLib F) (cat : cat_behavior_t F)
    (current_time entry_time : Int) (g : Rng) :
    (tick_transition L cat current_time entry_time g).1.base_speed = cat.base_speed ∧
    (tick_transition L cat current_time entry_time g).1.retreat_speed_multiplier
      = cat.retreat_speed_multiplier := by
  unfold tick_transition start_examining start_wandering start_retreat
  cases cat.state <;> simp only <;> split_ifs <;> exact ⟨rfl, rfl⟩

theorem tick_bounce_speeds (cat : cat_behavior_t F) :
    (tick_bounce cat).1.base_speed = cat.base_speed ∧
    (tick_bounce cat).1.retreat_speed_multiplier = cat.retreat_speed_multiplier := by
  unfold tick_bounce tick_bounce_y tick_bounce_x
  dsimp only
  split_ifs <;> exact ⟨rfl, rfl⟩

theorem tick_perturb_speeds (L : CLib F) (cat : cat_behavior_t F) (b : Bool) (g : Rng) :
    (tick_perturb L cat b g).1.base_speed = cat.base_speed ∧
    (tick_perturb L cat b g).1.retreat_speed_multiplier = cat.retreat_speed_multiplier := by
  unfold tick_perturb
  dsimp only
  split_ifs <;> exact ⟨rfl, rfl⟩

theorem cat_behavior_tick_speeds (L : CLib F) (cat : cat_behavior_t F) (seconds : F)
    (current_time entry_time : Int) (g : Rng) :
    (cat_behavior_tick L cat seconds current_time entry_time g).1.base_speed = cat.base_speed ∧
    (cat_behavior_tick L cat seconds current_time entry_time g).1.retreat_speed_multiplier
      = cat.retreat_speed_multiplier := by
  unfold cat_behavior_tick
  dsimp only
  obtain ⟨a1, a2⟩ := tick_transition_speeds L cat current_time entry_time g
  obtain ⟨b1, b2⟩ := tick_bounce_speeds
    (tick_integrate (tick_transition L cat current_time entry_time g).1 seconds)
  obtain ⟨c1, c2⟩ := tick_perturb_speeds L
    (tick_bounce (tick_integrate (tick_transition L cat current_time entry_time g).1 seconds)).1
    (tick_bounce (tick_integrate (tick_transition L cat current_time entry_time g).1 seconds)).2
    (tick_transition L cat current_time entry_time g).2
  constructor
  · rw [c1, b1]
    exact a1
  · rw [c2, b2]
    exact a2

theorem start_retreat_speed_sq (L : CLib F) (cat : cat_behavior_t F) (entry_time : Int)
    (hsqrt : ∀ q : F, 0 ≤ q → 0 ≤ L.sqrtf q ∧ L.sqrtf q * L.sqrtf q = q) :
    speed_sq (start_retreat L cat entry_time)
      = cat.base_speed * cat.retreat_speed_multiplier
        * (cat.base_speed * cat.retreat_speed_multiplier) := by
  have hq : 0 ≤ (cat.x - cat.mouse_x) * (cat.x - cat.mouse_x)
      + (cat.y - cat.mouse_y) * (cat.y - cat.mouse_y) :=
    add_nonneg (mul_self_nonneg _) (mul_self_nonneg _)
  obtain ⟨-, hdd⟩ := hsqrt _ hq
  unfold speed_sq start_retreat
  dsimp only
  split_ifs with hd
  · dsimp only
    generalize L.sqrtf ((cat.x - cat.mouse_x) * (cat.x - cat.mouse_x)
      + (cat.y - cat.mouse_y) * (cat.y - cat.mouse_y)) = d at hd hdd
    have hd0 : d ≠ 0 := ne_of_gt (lt_trans one_pos hd)
    have e : (cat.x - cat.mouse_x) / d * (cat.base_speed * cat.retreat_speed_multiplier)
          * ((cat.x - cat.mouse_x) / d * (cat.base_speed * cat.retreat_speed_multiplier))
        + (cat.y - cat.mouse_y) / d * (cat.base_speed * cat.retreat_speed_multiplier)
          * ((cat.y - cat.mouse_y) / d * (cat.base_speed * cat.retreat_speed_multiplier))
        = ((cat.x - cat.mouse_x) * (cat.x - cat.mouse_x)
            + (cat.y - cat.mouse_y) * (cat.y - cat.mouse_y)) / (d * d)
          * (cat.base_speed * cat.retreat_speed_multiplier
            * (cat.base_speed * cat.retreat_speed_multiplier)) := by
      field_simp
      ring
    rw [e, ← hdd, div_self (mul_ne_zero hd0 hd0), one_mul]
  · dsimp only
    ring

/-- C9, as stated, fails: from `cat_behavior_init(100, 100)` (cat at (50, 50),
speeds 30 and 3), the pointer set at (60, 50) and one tick of one second: the
tick enters the retreating state with velocity (-90, 0), reaches x = -40,
bounces, and ends retreating with velocity (63, 0), of length 63 and not 90. -/
theorem retreat_speed_damped_by_bounce :
    (0 < cat_100.base_speed ∧ 0 < cat_100.retreat_speed_multiplier) ∧
    (run_calls libQ cat_100
      [Call.set_mouse_position 60 50, Call.tick (frame0 1 0)]).state = CAT_STATE_RETREATING ∧
    (run_calls libQ cat_100
      [Call.set_mouse_position 60 50, Call.tick (frame0 1 0)]).vx = 63 ∧
    (run_calls libQ cat_100
      [Call.set_mouse_position 60 50, Call.tick (frame0 1 0)]).vy = 0 ∧
    speed_sq (run_calls libQ cat_100
      [Call.set_mouse_position 60 50, Call.tick (frame0 1 0)])
      ≠ cat_100.base_speed * cat_100.retreat_speed_multiplier
        * (cat_100.base_speed * cat_100.retreat_speed_multiplier) := by
  have h : qsqrt 100 = 10 := by
    have h0 := qsqrt_mul_self 10 (by norm_num)
    norm_num at h0
    exact h0
  have hs : (run_calls libQ cat_100
      [Call.set_mouse_position 60 50, Call.tick (frame0 1 0)]).state = CAT_STATE_RETREATING := by
    norm_num [run_calls, Call.run, frame0, cat_behavior_tick_state, tick_transition,
      cat_behavior_set_mouse_position, cat_100, cat_behavior_init, libQ, h, start_retreat_state]
  have hvx : (run_calls libQ cat_100
      [Call.set_mouse_position 60 50, Call.tick (frame0 1 0)]).vx = 63 := by
    simp [run_calls, Call.run, frame0, cat_behavior_tick, tick_perturb, tick_bounce,
      tick_bounce_x, tick_bounce_y, tick_integrate, tick_transition, start_retreat,
      cat_behavior_set_mouse_position, cat_100, cat_behavior_init, libQ, h]
    norm_num [h]
    simp
  have hvy : (run_calls libQ cat_100
      [Call.set_mouse_position 60 50, Call.tick (frame0 1 0)]).vy = 0 := by
    simp [run_calls, Call.run, frame0, cat_behavior_tick, tick_perturb, tick_bounce,
      tick_bounce_x, tick_bounce_y, tick_integrate, tick_transition, start_retreat,
      cat_behavior_set_mouse_position, cat_100, cat_behavior_init, libQ, h]
    norm_num [h]
    simp
  refine ⟨by norm_num [cat_100, cat_behavior_init], hs, hvx, hvy, ?_⟩
  unfold speed_sq
  rw [hvx, hvy]
  norm_num [cat_100, cat_behavior_init]

/-! ## The wandering speed -/

theorem start_wandering_speed_sq (L : CLib F) (cat : cat_behavior_t F) (entry_time : Int)
    (g : Rng) (hcs : ∀ a : F, L.cosf a * L.cosf a + L.sinf a * L.sinf a = 1) :
    speed_sq (start_wandering L cat entry_time g).1 = cat.base_speed * cat.base_speed := by
  unfold speed_sq start_wandering
  dsimp only
  have h := hcs (randf L g 0 (2 * L.M_PI)).1
  calc L.cosf (randf L g 0 (2 * L.M_PI)).1 * cat.base_speed
        * (L.cosf (randf L g 0 (2 * L.M_PI)).1 * cat.base_speed)
      + L.sinf (randf L g 0 (2 * L.M_PI)).1 * cat.base_speed
        * (L.sinf (randf L g 0 (2 * L.M_PI)).1 * cat.base_speed)
      = (L.cosf (randf L g 0 (2 * L.M_PI)).1 * L.cosf (randf L g 0 (2 * L.M_PI)).1
          + L.sinf (randf L g 0 (2 * L.M_PI)).1 * L.sinf (randf L g 0 (2 * L.M_PI)).1)
        * (cat.base_speed * cat.base_speed) := by ring
    _ = cat.base_speed * cat.base_speed := by rw [h, one_mul]

theorem cat_behavior_init_speed_sq (L : CLib F) (screen_width screen_height : Nat)
    (now : Int) (g : Rng) (hcs : ∀ a : F, L.cosf a * L.cosf a + L.sinf a * L.sinf a = 1) :
    speed_sq (cat_behavior_init L screen_width screen_height now g).1
      = (cat_behavior_init L screen_width screen_height now g).1.base_speed
        * (cat_behavior_init L screen_width screen_height now g).1.base_speed := by
  unfold speed_sq cat_behavior_init
  dsimp only
  have h := hcs (rand_unit L g * 2 * L.M_PI)
  calc L.cosf (rand_unit L g * 2 * L.M_PI) * 30 * (L.cosf (rand_unit L g * 2 * L.M_PI) * 30)
      + L.sinf (rand_unit L g * 2 * L.M_PI) * 30 * (L.sinf (rand_unit L g * 2 * L.M_PI) * 30)
      = (L.cosf (rand_unit L g * 2 * L.M_PI) * L.cosf (rand_unit L g * 2 * L.M_PI)
          + L.sinf (rand_unit L g * 2 * L.M_PI) * L.sinf (rand_unit L g * 2 * L.M_PI))
        * (30 * 30) := by ring
    _ = 30 * 30 := by rw [h, one_mul]

theorem tick_perturb_speed_sq (L : CLib F) (cat : cat_behavior_t F) (b : Bool) (g : Rng)
    (hcs : ∀ a : F, L.cosf a * L.cosf a + L.sinf a * L.sinf a = 1)
    (hb : b = true) (hw : cat.state = CAT_STATE_WANDERING)
    (hdraw : (randf L g 0 1).1 < 0.4) :
    speed_sq (tick_perturb L cat b g).1 = cat.base_speed * cat.base_speed := by
  unfold tick_perturb
  dsimp only
  rw [if_pos (by simp [hb, hw]), if_pos hdraw]
  unfold speed_sq
  dsimp only
  have h := hcs (randf L (randf L g 0 1).2 0 (2 * L.M_PI)).1
  generalize L.cosf (randf L (randf L g 0 1).2 0 (2 * L.M_PI)).1 = c at h
  generalize L.sinf (randf L (randf L g 0 1).2 0 (2 * L.M_PI)).1 = s at h
  calc c * cat.base_speed * (c * cat.base_speed) + s * cat.base_speed * (s * cat.base_speed)
      = (c * c + s * s) * (cat.base_speed * cat.base_speed) := by ring
    _ = cat.base_speed * cat.base_speed := by rw [h, one_mul]

/-! ## Evaluation on the concrete library -/

theorem constRng_apply (r n : Nat) : constRng r n = r := rfl

theorem constRng_next (r : Nat) : (constRng r).next = constRng r := rfl

theorem rand_unit_libQ_zero : rand_unit libQ (constRng 0) = 0 := by
  simp [rand_unit, constRng]

theorem rand_unit_libQ_max : rand_unit libQ (constRng 2147483647) = 1 := by
  simp [rand_unit, constRng, libQ]

theorem randf_libQ_max : (randf libQ (constRng 2147483647) 0 1).1 = 1 := by
  rw [randf_zero_one, rand_unit_libQ_max]

theorem qcos_zero : qcos 0 = 1 := by
  norm_num [qcos]

theorem qsin_zero : qsin 0 = 0 := by
  norm_num [qsin]

theorem cat_100_eq :
    cat_100 =
      { x := 50, y := 50, vx := 30, vy := 0, screen_width := 100, screen_height := 100,
        state := CAT_STATE_WANDERING, state_start_time := 0, target_x := 0, target_y := 0,
        base_speed := 30, retreat_speed_multiplier := 3, mouse_avoidance_radius := 150,
        examine_duration_min := 1.5, examine_duration_max := 4, wander_change_interval := 3,
        mouse_x := 0, mouse_y := 0, mouse_nearby := false, texture_width := 0,
        texture_height := 0 } := by
  unfold cat_100 cat_behavior_init
  dsimp only
  rw [rand_unit_libQ_zero]
  norm_num [libQ, qcos_zero, qsin_zero]

theorem tick_cat_100_eq :
    (cat_behavior_tick libQ cat_100 2 0 0 (constRng 2147483647)).1 = cat_damped := by
  simp [cat_behavior_tick, tick_perturb, tick_bounce, tick_bounce_x, tick_bounce_y,
    tick_integrate, tick_transition, cat_damped, cat_100_eq, randf_libQ_max, constRng_next]
  norm_num [randf_libQ_max]

theorem tick_cat_100_bounced :
    tick_bounced libQ cat_100 2 0 0 (constRng 2147483647) = true := by
  simp [tick_bounced, tick_integrated, tick_bounce, tick_bounce_x, tick_bounce_y,
    tick_integrate, tick_transition, cat_100_eq]
  norm_num

theorem tick_cat_100_not_perturbed :
    tick_perturbed libQ cat_100 2 0 0 (constRng 2147483647) = false := by
  simp [tick_perturbed, tick_transition, cat_100_eq, randf_libQ_max]
  norm_num [randf_libQ_max]

theorem tick_cat_damped_not_bounced :
    tick_bounced libQ cat_damped 1 0 0 (constRng 2147483647) = false := by
  simp [tick_bounced, tick_integrated, tick_bounce, tick_bounce_x, tick_bounce_y,
    tick_integrate, tick_transition, cat_damped, cat_100_eq]
  norm_num

theorem tick_cat_damped_eq :
    (cat_behavior_tick libQ cat_damped 1 0 0 (constRng 2147483647)).1
      = { cat_damped with x := 79 } := by
  rw [cat_behavior_tick_of_not_bounced libQ cat_damped 1 0 0 (constRng 2147483647)
    tick_cat_damped_not_bounced]
  simp [tick_integrated, tick_integrate, tick_transition, cat_damped, cat_100_eq]
  norm_num

/-! ## The velocity while examining -/

theorem tick_bounce_velocity_zero (cat : cat_behavior_t F)
    (hx : cat.vx = 0) (hy : cat.vy = 0) :
    (tick_bounce cat).1.vx = 0 ∧ (tick_bounce cat).1.vy = 0 := by
  constructor
  · show (tick_bounce_y (tick_bounce_x cat).1).1.vx = 0
    rw [(tick_bounce_y_frame _).2, tick_bounce_x_fst_vx, hx]
    split_ifs <;> simp
  · show (tick_bounce_y (tick_bounce_x cat).1).1.vy = 0
    rw [tick_bounce_y_fst_vy, (tick_bounce_x_frame cat).2.1, hy]
    split_ifs <;> simp

theorem tick_transition_examining_velocity (L : CLib F) (cat : cat_behavior_t F)
    (current_time entry_time : Int) (g : Rng)
    (hinv : cat.state = CAT_STATE_EXAMINING → cat.vx = 0 ∧ cat.vy = 0)
    (he : (tick_transition L cat current_time entry_time g).1.state = CAT_STATE_EXAMINING) :
    (tick_transition L cat current_time entry_time g).1.vx = 0 ∧
    (tick_transition L cat current_time entry_time g).1.vy = 0 := by
  unfold tick_transition at he ⊢
  cases hst : cat.state
  · rw [hst] at he
    dsimp only at he ⊢
    split_ifs at he ⊢
    · exact ⟨rfl, rfl⟩
    · exact absurd he (by rw [start_retreat_state]; decide)
    · exact absurd he (by rw [hst]; decide)
    · exact absurd he (by rw [start_retreat_state]; decide)
    · exact absurd he (by rw [hst]; decide)
  · rw [hst] at he
    dsimp only at he ⊢
    split_ifs at he ⊢
    · exact absurd he (by rw [start_wandering_state]; decide)
    · exact absurd he (by rw [start_retreat_state]; decide)
    · exact hinv hst
  · rw [hst] at he
    dsimp only at he ⊢
    split_ifs at he ⊢
    · exact absurd he (by rw [start_wandering_state]; decide)
    · exact ⟨rfl, rfl⟩
    · exact absurd he (by rw [hst]; decide)

theorem cat_behavior_tick_examining_velocity (L : CLib F) (cat : cat_behavior_t F)
    (seconds : F) (current_time entry_time : Int) (g : Rng)
    (hinv : cat.state = CAT_STATE_EXAMINING → cat.vx = 0 ∧ cat.vy = 0)
    (he : (cat_behavior_tick L cat seconds current_time entry_time g).1.state
      = CAT_STATE_EXAMINING) :
    (cat_behavior_tick L cat seconds current_time entry_time g).1.vx = 0 ∧
    (cat_behavior_tick L cat seconds current_time entry_time g).1.vy = 0 := by
  rw [cat_behavior_tick_state] at he
  obtain ⟨h1, h2⟩ := tick_transition_examining_velocity L cat current_time entry_time g hinv he
  have hp : (cat_behavior_tick L cat seconds current_time entry_time g).1
      = (tick_bounce (tick_integrate
          (tick_transition L cat current_time entry_time g).1 seconds)).1 := by
    unfold cat_behavior_tick
    dsimp only
    apply tick_perturb_of_not
    right
    left
    rw [tick_bounce_state, tick_integrate_state, he]
    decide
  rw [hp]
  exact tick_bounce_velocity_zero _ h1 h2

theorem curious_cat_render_size_frame (cat : cat_behavior_t F) (width height : Nat) :
    (curious_cat_render_size cat width height).state = cat.state ∧
    (curious_cat_render_size cat width height).vx = cat.vx ∧
    (curious_cat_render_size cat width height).vy = cat.vy := by
  unfold curious_cat_render_size
  split_ifs <;> exact ⟨rfl, rfl, rfl⟩

theorem HostCall_run_examining_velocity (L : CLib F) (cat : cat_behavior_t F)
    (c : HostCall F)
    (hinv : cat.state = CAT_STATE_EXAMINING → cat.vx = 0 ∧ cat.vy = 0) :
    (HostCall.run L cat c).state = CAT_STATE_EXAMINING →
      (HostCall.run L cat c).vx = 0 ∧ (HostCall.run L cat c).vy = 0 := by
  cases c with
  | set_mouse_position x y => exact hinv
  | tick f =>
    intro he
    exact cat_behavior_tick_examining_velocity L cat f.seconds f.current_time f.entry_time
      f.rng hinv he
  | render_size width height =>
    intro he
    obtain ⟨h1, h2, h3⟩ := curious_cat_render_size_frame cat width height
    simp only [HostCall.run] at he ⊢
    rw [h1] at he
    rw [h2, h3]
    exact hinv he
  | load_texture loaded =>
    cases loaded with
    | none => exact hinv
    | some size => exact hinv
  | config bs m r emin emax wci => exact hinv

theorem run_host_examining_velocity (L : CLib F) (calls : List (HostCall F)) :
    ∀ cat : cat_behavior_t F,
      (cat.state = CAT_STATE_EXAMINING → cat.vx = 0 ∧ cat.vy = 0) →
      (run_host L cat calls).state = CAT_STATE_EXAMINING →
      (run_host L cat calls).vx = 0 ∧ (run_host L cat calls).vy = 0 := by
  induction calls with
  | nil => intro cat hinv; exact hinv
  | cons c cs ih =>
    intro cat hinv
    exact ih (HostCall.run L cat c) (HostCall_run_examining_velocity L cat c hinv)

/-- C11: start from `cat_behavior_init` and make any sequence of calls of the
host: `cat_behavior_set_mouse_position`, `cat_behavior_tick` (bouncing or
not), changes of the surface size, of the sprite size and of the
configuration.  Whenever the state at the end is examining, the velocity is
exactly (0, 0). -/
theorem examining_velocity_zero (L : CLib F) (screen_width screen_height : Nat)
    (now : Int) (g : Rng) (calls : List (HostCall F)) :
    (run_host L (cat_behavior_init L screen_width screen_height now g).1 calls).state
      = CAT_STATE_EXAMINING →
    (run_host L (cat_behavior_init L screen_width screen_height now g).1 calls).vx = 0 ∧
    (run_host L (cat_behavior_init L screen_width screen_height now g).1 calls).vy = 0 := by
  apply run_host_examining_velocity
  intro h
  exact absurd h (by simp [cat_behavior_init])

theorem tick_cat_100_examining_eq :
    (cat_behavior_tick libQ cat_100 1 4 4 (constRng 0)).1 = cat_examining := by
  simp [cat_behavior_tick, tick_perturb, tick_bounce, tick_bounce_x, tick_bounce_y,
    tick_integrate, tick_transition, start_examining, cat_examining, cat_100_eq, randf,
    rand_unit_libQ_zero, constRng_next]
  norm_num [rand_unit_libQ_zero]

theorem tick_cat_examining_shrunk_state :
    (cat_behavior_tick libQ (curious_cat_render_size cat_examining 10 10) 1 4 4
      (constRng 2147483647)).1.state = CAT_STATE_EXAMINING := by
  rw [cat_behavior_tick_state]
  simp [tick_transition, curious_cat_render_size, cat_examining, cat_100_eq, randf,
    rand_unit_libQ_max]
  norm_num [rand_unit_libQ_max]

theorem tick_cat_examining_shrunk_bounced :
    tick_bounced libQ (curious_cat_render_size cat_examining 10 10) 1 4 4
      (constRng 2147483647) = true := by
  simp [tick_bounced, tick_integrated, tick_bounce, tick_bounce_x, tick_bounce_y,
    tick_integrate, tick_transition, curious_cat_render_size, cat_examining, cat_100_eq, randf,
    rand_unit_libQ_max]
  norm_num [rand_unit_libQ_max]

/-- C11 at a concrete input: from `cat_behavior_init(100, 100)`, a tick at
time 4 with draw 0 enters the examining state, the host shrinks the surface to
10x10, and the next tick clamps the cat to the new edge, a bounce; the state is
still examining and the velocity is (0, 0). -/
theorem examining_velocity_zero_witness :
    tick_bounced libQ (curious_cat_render_size cat_examining 10 10) 1 4 4
      (constRng 2147483647) = true ∧
    (run_host libQ (cat_behavior_init libQ 100 100 0 (constRng 0)).1
      [HostCall.tick { seconds := 1, current_time := 4, entry_time := 4, rng := constRng 0 },
       HostCall.render_size 10 10,
       HostCall.tick { seconds := 1, current_time := 4, entry_time := 4,
                       rng := constRng 2147483647 }]).state = CAT_STATE_EXAMINING ∧
    (run_host libQ (cat_behavior_init libQ 100 100 0 (constRng 0)).1
      [HostCall.tick { seconds := 1, current_time := 4, entry_time := 4, rng := constRng 0 },
       HostCall.render_size 10 10,
       HostCall.tick { seconds := 1, current_time := 4, entry_time := 4,
                       rng := constRng 2147483647 }]).vx = 0 ∧
    (run_host libQ (cat_behavior_init libQ 100 100 0 (constRng 0)).1
      [HostCall.tick { seconds := 1, current_time := 4, entry_time := 4, rng := constRng 0 },
       HostCall.render_size 10 10,
       HostCall.tick { seconds := 1, current_time := 4, entry_time := 4,
                       rng := constRng 2147483647 }]).vy = 0 := by
  have he : (run_host libQ (cat_behavior_init libQ 100 100 0 (constRng 0)).1
      [HostCall.tick { seconds := 1, current_time := 4, entry_time := 4, rng := constRng 0 },
       HostCall.render_size 10 10,
       HostCall.tick { seconds := 1, current_time := 4, entry_time := 4,
                       rng := constRng 2147483647 }]).state = CAT_STATE_EXAMINING := by
    show (cat_behavior_tick libQ (curious_cat_render_size
      (cat_behavior_tick libQ cat_100 1 4 4 (constRng 0)).1 10 10) 1 4 4
      (constRng 2147483647)).1.state = CAT_STATE_EXAMINING
    rw [tick_cat_100_examining_eq]
    exact tick_cat_examining_shrunk_state
  exact ⟨tick_cat_examining_shrunk_bounced, he,
    examining_velocity_zero libQ 100 100 0 (constRng 0) _ he⟩

/-! ## What a tick leaves unchanged -/

theorem tick_transition_frame (L : CLib F) (cat : cat_behavior_t F)
    (current_time entry_time : Int) (g : Rng) :
    (tick_transition L cat current_time entry_time g).1.x = cat.x ∧
    (tick_transition L cat current_time entry_time g).1.y = cat.y ∧
    (tick_transition L cat current_time entry_time g).1.mouse_x = cat.mouse_x ∧
    (tick_transition L cat current_time entry_time g).1.mouse_y = cat.mouse_y ∧
    (tick_transition L cat current_time entry_time g).1.mouse_nearby = cat.mouse_nearby ∧
    (tick_transition L cat current_time entry_time g).1.mouse_avoidance_radius
      = cat.mouse_avoidance_radius ∧
    (tick_transition L cat current_time entry_time g).1.examine_duration_min
      = cat.examine_duration_min ∧
    (tick_transition L cat current_time entry_time g).1.examine_duration_max
      = cat.examine_duration_max ∧
    (tick_transition L cat current_time entry_time g).1.wander_change_interval
      = cat.wander_change_interval := by
  unfold tick_transition start_examining start_wandering start_retreat
  cases cat.state <;> simp only <;> split_ifs <;>
    exact ⟨rfl, rfl, rfl, rfl, rfl, rfl, rfl, rfl, rfl⟩

theorem tick_bounce_eq_with (cat : cat_behavior_t F) :
    (tick_bounce cat).1 =
      { cat with
        x := (tick_bounce cat).1.x
        y := (tick_bounce cat).1.y
        vx := (tick_bounce cat).1.vx
        vy := (tick_bounce cat).1.vy } := by
  unfold tick_bounce tick_bounce_y tick_bounce_x
  dsimp only
  split_ifs <;> rfl

theorem tick_perturb_eq_with (L : CLib F) (cat : cat_behavior_t F) (b : Bool) (g : Rng) :
    (tick_perturb L cat b g).1 =
      { cat with
        vx := (tick_perturb L cat b g).1.vx
        vy := (tick_perturb L cat b g).1.vy } := by
  unfold tick_perturb
  dsimp only
  split_ifs <;> rfl

/-- After the state-transition switch a tick only writes the position and the
velocity. -/
theorem cat_behavior_tick_eq_with (L : CLib F) (cat : cat_behavior_t F) (seconds : F)
    (current_time entry_time : Int) (g : Rng) :
    (cat_behavior_tick L cat seconds current_time entry_time g).1 =
      { (tick_transition L cat current_time entry_time g).1 with
        x := (cat_behavior_tick L cat seconds current_time entry_time g).1.x
        y := (cat_behavior_tick L cat seconds current_time entry_time g).1.y
        vx := (cat_behavior_tick L cat seconds current_time entry_time g).1.vx
        vy := (cat_behavior_tick L cat seconds current_time entry_time g).1.vy } := by
  have h1 := tick_perturb_eq_with L
    (tick_bounce (tick_integrate (tick_transition L cat current_time entry_time g).1 seconds)).1
    (tick_bounce (tick_integrate (tick_transition L cat current_time entry_time g).1 seconds)).2
    (tick_transition L cat current_time entry_time g).2
  have h2 := tick_bounce_eq_with
    (tick_integrate (tick_transition L cat current_time entry_time g).1 seconds)
  unfold cat_behavior_tick
  dsimp only
  rw [h1, h2]
  rfl

theorem cat_behavior_tick_start_time (L : CLib F) (cat : cat_behavior_t F) (seconds : F)
    (current_time entry_time : Int) (g : Rng) :
    (cat_behavior_tick L cat seconds current_time entry_time g).1.state_start_time
      = (tick_transition L cat current_time entry_time g).1.state_start_time := by
  rw [cat_behavior_tick_eq_with]

theorem cat_behavior_tick_target (L : CLib F) (cat : cat_behavior_t F) (seconds : F)
    (current_time entry_time : Int) (g : Rng) :
    (cat_behavior_tick L cat seconds current_time entry_time g).1.target_x
      = (tick_transition L cat current_time entry_time g).1.target_x ∧
    (cat_behavior_tick L cat seconds current_time entry_time g).1.target_y
      = (tick_transition L cat current_time entry_time g).1.target_y := by
  rw [cat_behavior_tick_eq_with]
  exact ⟨rfl, rfl⟩

/-- C19: `cat_behavior_tick` writes only the position, the velocity, the
state, `state_start_time` and the examine target.  The pointer position,
`mouse_nearby`, the surface size, the sprite size and the six configuration
parameters are the same before and after the tick, for every state, frame
time, clock readings and random draws; `mouse_nearby` in particular is not
computed again although the cat has moved. -/
theorem tick_frame (L : CLib F) (cat : cat_behavior_t F) (seconds : F)
    (current_time entry_time : Int) (g : Rng) :
    (cat_behavior_tick L cat seconds current_time entry_time g).1.mouse_x = cat.mouse_x ∧
    (cat_behavior_tick L cat seconds current_time entry_time g).1.mouse_y = cat.mouse_y ∧
    (cat_behavior_tick L cat seconds current_time entry_time g).1.mouse_nearby
      = cat.mouse_nearby ∧
    (cat_behavior_tick L cat seconds current_time entry_time g).1.screen_width
      = cat.screen_width ∧
    (cat_behavior_tick L cat seconds current_time entry_time g).1.screen_height
      = cat.screen_height ∧
    (cat_behavior_tick L cat seconds current_time entry_time g).1.texture_width
      = cat.texture_width ∧
    (cat_behavior_tick L cat seconds current_time entry_time g).1.texture_height
      = cat.texture_height ∧
    (cat_behavior_tick L cat seconds current_time entry_time g).1.base_speed
      = cat.base_speed ∧
    (cat_behavior_tick L cat seconds current_time entry_time g).1.retreat_speed_multiplier
      = cat.retreat_speed_multiplier ∧
    (cat_behavior_tick L cat seconds current_time entry_time g).1.mouse_avoidance_radius
      = cat.mouse_avoidance_radius ∧
    (cat_behavior_tick L cat seconds current_time entry_time g).1.examine_duration_min
      = cat.examine_duration_min ∧
    (cat_behavior_tick L cat seconds current_time entry_time g).1.examine_duration_max
      = cat.examine_duration_max ∧
    (cat_behavior_tick L cat seconds current_time entry_time g).1.wander_change_interval
      = cat.wander_change_interval := by
  obtain ⟨-, -, f3, f4, f5, f6, f7, f8, f9⟩ :=
    tick_transition_frame L cat current_time entry_time g
  obtain ⟨s1, s2, s3, s4⟩ := tick_transition_screen L cat current_time entry_time g
  obtain ⟨c1, c2⟩ := tick_transition_speeds L cat current_time entry_time g
  rw [cat_behavior_tick_eq_with]
  exact ⟨f3, f4, f5, s1, s2, s3, s4, c1, c2, f6, f7, f8, f9⟩

/-- C13: from the retreating state with `mouse_nearby` set, `cat_behavior_tick`
leaves the state retreating and leaves `state_start_time` as it is, whatever
the dwell time, the frame time and the random draws: the retreating state has
no exit on time. -/
theorem retreating_persists (L : CLib F) (cat : cat_behavior_t F) (seconds : F)
    (current_time entry_time : Int) (g : Rng)
    (hr : cat.state = CAT_STATE_RETREATING) (hm : cat.mouse_nearby = true) :
    (cat_behavior_tick L cat seconds current_time entry_time g).1.state
      = CAT_STATE_RETREATING ∧
    (cat_behavior_tick L cat seconds current_time entry_time g).1.state_start_time
      = cat.state_start_time := by
  have ht : (tick_transition L cat current_time entry_time g).1 = cat := by
    unfold tick_transition
    rw [hr]
    dsimp only
    rw [hm]
    rfl
  rw [cat_behavior_tick_state, cat_behavior_tick_start_time, ht]
  exact ⟨hr, rfl⟩

/-- C13 at a concrete input: the cat retreating since time 0 with the pointer
nearby, ticked at time 1000000: still retreating, `state_start_time` still 0. -/
theorem retreating_persists_witness :
    (cat_retreating.state = CAT_STATE_RETREATING ∧ cat_retreating.mouse_nearby = true) ∧
    (cat_behavior_tick libQ cat_retreating 1 1000000 1000000 (constRng 0)).1.state
      = CAT_STATE_RETREATING ∧
    (cat_behavior_tick libQ cat_retreating 1 1000000 1000000 (constRng 0)).1.state_start_time
      = 0 := by
  have hr : cat_retreating.state = CAT_STATE_RETREATING := rfl
  have hm : cat_retreating.mouse_nearby = true := rfl
  obtain ⟨h1, h2⟩ := retreating_persists libQ cat_retreating 1 1000000 1000000 (constRng 0) hr hm
  refine ⟨⟨hr, hm⟩, h1, ?_⟩
  rw [h2]
  simp [cat_retreating, cat_100_eq]

/-- C12: for every surface size `(w, h)`, clock reading and first random draw,
`cat_behavior_init` puts the cat at `(w / 2, h / 2)` in the wandering state
with `state_start_time = now`, velocity `(cosf angle, sinf angle) * 30` for
`angle = (float)rand() / RAND_MAX * 2 * M_PI`, of length `base_speed = 30`
(on squares, `cosf` and `sinf` giving a point of the unit circle), and sets
retreat multiplier 3, avoidance radius 150, examine duration 1.5 to 4,
wander-change interval 3, sprite size (0, 0) and `mouse_nearby = false`. -/
theorem cat_behavior_init_state (L : CLib F)
    (hcs : ∀ a : F, L.cosf a * L.cosf a + L.sinf a * L.sinf a = 1)
    (screen_width screen_height : Nat) (now : Int) (g : Rng) :
    (cat_behavior_init L screen_width screen_height now g).1.x = (screen_width : F) / 2 ∧
    (cat_behavior_init L screen_width screen_height now g).1.y = (screen_height : F) / 2 ∧
    (cat_behavior_init L screen_width screen_height now g).1.state = CAT_STATE_WANDERING ∧
    (cat_behavior_init L screen_width screen_height now g).1.state_start_time = now ∧
    (cat_behavior_init L screen_width screen_height now g).1.vx
      = L.cosf (rand_unit L g * 2 * L.M_PI) * 30 ∧
    (cat_behavior_init L screen_width screen_height now g).1.vy
      = L.sinf (rand_unit L g * 2 * L.M_PI) * 30 ∧
    speed_sq (cat_behavior_init L screen_width screen_height now g).1 = 30 * 30 ∧
    (cat_behavior_init L screen_width screen_height now g).1.base_speed = 30 ∧
    (cat_behavior_init L screen_width screen_height now g).1.retreat_speed_multiplier = 3 ∧
    (cat_behavior_init L screen_width screen_height now g).1.mouse_avoidance_radius = 150 ∧
    (cat_behavior_init L screen_width screen_height now g).1.examine_duration_min = 1.5 ∧
    (cat_behavior_init L screen_width screen_height now g).1.examine_duration_max = 4 ∧
    (cat_behavior_init L screen_width screen_height now g).1.wander_change_interval = 3 ∧
    (cat_behavior_init L screen_width screen_height now g).1.texture_width = 0 ∧
    (cat_behavior_init L screen_width screen_height now g).1.texture_height = 0 ∧
    (cat_behavior_init L screen_width screen_height now g).1.mouse_nearby = false := by
  have hs := cat_behavior_init_speed_sq L screen_width screen_height now g hcs
  refine ⟨?_, ?_, rfl, rfl, rfl, rfl, hs, rfl, rfl, rfl, rfl, rfl, rfl, rfl, rfl, rfl⟩
  · show (screen_width : F) * 0.5 = (screen_width : F) / 2
    norm_num
    ring
  · show (screen_height : F) * 0.5 = (screen_height : F) / 2
    norm_num
    ring

/-- C12 at the input of the specification: `cat_behavior_init(800, 600)` puts
the cat at (400, 300). -/
theorem cat_behavior_init_state_witness :
    (∀ a : ℚ, libQ.cosf a * libQ.cosf a + libQ.sinf a * libQ.sinf a = 1) ∧
    (cat_behavior_init libQ 800 600 0 (constRng 0)).1.x = 400 ∧
    (cat_behavior_init libQ 800 600 0 (constRng 0)).1.y = 300 := by
  obtain ⟨hx, hy, -⟩ :=
    cat_behavior_init_state libQ qcos_sq_add_qsin_sq 800 600 0 (constRng 0)
  refine ⟨qcos_sq_add_qsin_sq, ?_, ?_⟩
  · rw [hx]
    norm_num
  · rw [hy]
    norm_num

/-- C14: from the retreating state with `mouse_nearby` clear,
`cat_behavior_tick` always leaves the retreating state and sets
`state_start_time` to the clock reading of the entry action.  If the draw
`randf(0, 1)` is below 0.7 the state becomes wandering, entered with velocity
`(cosf angle, sinf angle) * base_speed` for a drawn angle, of length
`base_speed` (on squares, `cosf` and `sinf` giving a point of the unit
circle); otherwise the state becomes examining, with velocity (0, 0) and a
newly drawn examine target. -/
theorem retreating_exit (L : CLib F)
    (hcs : ∀ a : F, L.cosf a * L.cosf a + L.sinf a * L.sinf a = 1)
    (cat : cat_behavior_t F) (seconds : F) (current_time entry_time : Int) (g : Rng)
    (hr : cat.state = CAT_STATE_RETREATING) (hm : cat.mouse_nearby = false) :
    (cat_behavior_tick L cat seconds current_time entry_time g).1.state
      ≠ CAT_STATE_RETREATING ∧
    (cat_behavior_tick L cat seconds current_time entry_time g).1.state_start_time
      = entry_time ∧
    ((randf L g 0 1).1 < 0.7 →
      (cat_behavior_tick L cat seconds current_time entry_time g).1.state
        = CAT_STATE_WANDERING ∧
      (tick_transition L cat current_time entry_time g).1.vx
        = L.cosf (randf L (randf L g 0 1).2 0 (2 * L.M_PI)).1 * cat.base_speed ∧
      (tick_transition L cat current_time entry_time g).1.vy
        = L.sinf (randf L (randf L g 0 1).2 0 (2 * L.M_PI)).1 * cat.base_speed ∧
      speed_sq (tick_transition L cat current_time entry_time g).1
        = cat.base_speed * cat.base_speed) ∧
    (¬ (randf L g 0 1).1 < 0.7 →
      (cat_behavior_tick L cat seconds current_time entry_time g).1.state
        = CAT_STATE_EXAMINING ∧
      (cat_behavior_tick L cat seconds current_time entry_time g).1.vx = 0 ∧
      (cat_behavior_tick L cat seconds current_time entry_time g).1.vy = 0 ∧
      (cat_behavior_tick L cat seconds current_time entry_time g).1.target_x
        = (randf L (randf L g 0 1).2 0 cat.screen_width).1 ∧
      (cat_behavior_tick L cat seconds current_time entry_time g).1.target_y
        = (randf L (randf L (randf L g 0 1).2 0 cat.screen_width).2 0
            cat.screen_height).1) := by
  have ht : tick_transition L cat current_time entry_time g =
      if (randf L g 0 1).1 < 0.7 then start_wandering L cat entry_time (randf L g 0 1).2
      else start_examining L cat entry_time (randf L g 0 1).2 := by
    unfold tick_transition
    rw [hr]
    dsimp only
    rw [hm]
    rfl
  obtain ⟨tx, ty⟩ := cat_behavior_tick_target L cat seconds current_time entry_time g
  by_cases hd : (randf L g 0 1).1 < 0.7
  · rw [if_pos hd] at ht
    have hst : (cat_behavior_tick L cat seconds current_time entry_time g).1.state
        = CAT_STATE_WANDERING := by
      rw [cat_behavior_tick_state, ht]
      rfl
    refine ⟨by rw [hst]; decide, ?_, ?_, fun h => absurd hd h⟩
    · rw [cat_behavior_tick_start_time, ht]
      rfl
    · intro _
      refine ⟨hst, ?_, ?_, ?_⟩
      · rw [ht]
        rfl
      · rw [ht]
        rfl
      · rw [ht]
        exact start_wandering_speed_sq L cat entry_time _ hcs
  · rw [if_neg hd] at ht
    have hst : (cat_behavior_tick L cat seconds current_time entry_time g).1.state
        = CAT_STATE_EXAMINING := by
      rw [cat_behavior_tick_state, ht]
      rfl
    refine ⟨by rw [hst]; decide, ?_, fun h => absurd h hd, ?_⟩
    · rw [cat_behavior_tick_start_time, ht]
      rfl
    · intro _
      obtain ⟨hvx, hvy⟩ := cat_behavior_tick_examining_velocity L cat seconds current_time
        entry_time g (fun h => absurd (hr.symm.trans h) (by decide)) hst
      refine ⟨hst, hvx, hvy, ?_, ?_⟩
      · rw [tx, ht]
        rfl
      · rw [ty, ht]
        rfl

/-- C14 at a concrete input: the cat retreating since time 0, the pointer no
longer nearby, ticked at time 7 with draw 0 < 0.7: the state becomes wandering
and `state_start_time` becomes 7. -/
theorem retreating_exit_witness :
    (∀ a : ℚ, libQ.cosf a * libQ.cosf a + libQ.sinf a * libQ.sinf a = 1) ∧
    ({ cat_retreating with mouse_nearby := false } : cat_behavior_t ℚ).state
      = CAT_STATE_RETREATING ∧
    (randf libQ (constRng 0) 0 1).1 < 0.7 ∧
    (cat_behavior_tick libQ { cat_retreating with mouse_nearby := false } 1 7 7
      (constRng 0)).1.state = CAT_STATE_WANDERING ∧
    (cat_behavior_tick libQ { cat_retreating with mouse_nearby := false } 1 7 7
      (constRng 0)).1.state_start_time = 7 := by
  have hd : (randf libQ (constRng 0) 0 1).1 < 0.7 := by
    rw [randf_zero_one, rand_unit_libQ_zero]
    norm_num
  obtain ⟨-, h2, h3, -⟩ := retreating_exit libQ qcos_sq_add_qsin_sq
    { cat_retreating with mouse_nearby := false } 1 7 7 (constRng 0) rfl rfl
  exact ⟨qcos_sq_add_qsin_sq, rfl, hd, (h3 hd).1, h2⟩

/-- C15: the rules of a state are tried in order and the first match wins.
From the wandering state with the dwell time above `wander_change_interval`,
the draw below 0.3 and `mouse_nearby` set, the tick ends examining, and the
switch applied `start_examining` to the state before the tick and nothing
else.  From the examining state with the dwell time above the drawn duration
and `mouse_nearby` set, the tick ends wandering, and the switch applied
`start_wandering` to the state before the tick and nothing else. -/
theorem first_match_wins (L : CLib F) (cat : cat_behavior_t F) (seconds : F)
    (current_time entry_time : Int) (g : Rng) :
    (cat.state = CAT_STATE_WANDERING →
      ((current_time - cat.state_start_time : Int) : F) > cat.wander_change_interval →
      (randf L g 0 1).1 < 0.3 →
      cat.mouse_nearby = true →
      (cat_behavior_tick L cat seconds current_time entry_time g).1.state
        = CAT_STATE_EXAMINING ∧
      tick_transition L cat current_time entry_time g
        = start_examining L cat entry_time (randf L g 0 1).2) ∧
    (cat.state = CAT_STATE_EXAMINING →
      ((current_time - cat.state_start_time : Int) : F)
        > (randf L g cat.examine_duration_min cat.examine_duration_max).1 →
      cat.mouse_nearby = true →
      (cat_behavior_tick L cat seconds current_time entry_time g).1.state
        = CAT_STATE_WANDERING ∧
      tick_transition L cat current_time entry_time g
        = start_wandering L cat entry_time
            (randf L g cat.examine_duration_min cat.examine_duration_max).2) := by
  constructor
  · intro hw h1 h2 _
    have ht : tick_transition L cat current_time entry_time g
        = start_examining L cat entry_time (randf L g 0 1).2 := by
      unfold tick_transition
      rw [hw]
      dsimp only
      rw [if_pos h1, if_pos h2]
    refine ⟨?_, ht⟩
    rw [cat_behavior_tick_state, ht]
    rfl
  · intro he h1 _
    have ht : tick_transition L cat current_time entry_time g
        = start_wandering L cat entry_time
            (randf L g cat.examine_duration_min cat.examine_duration_max).2 := by
      unfold tick_transition
      rw [he]
      dsimp only
      rw [if_pos h1]
    refine ⟨?_, ht⟩
    rw [cat_behavior_tick_state, ht]
    rfl

/-- C15 at concrete inputs, both with the pointer nearby: the wandering cat
`cat_100` ticked at time 4 with draw 0 ends examining; the examining cat
`cat_examining` (since time 4) ticked at time 9 with draw 0 ends wandering. -/
theorem first_match_wins_witness :
    (cat_behavior_tick libQ { cat_100 with mouse_nearby := true } 1 4 4
      (constRng 0)).1.state = CAT_STATE_EXAMINING ∧
    (cat_behavior_tick libQ { cat_examining with mouse_nearby := true } 1 9 9
      (constRng 0)).1.state = CAT_STATE_WANDERING := by
  constructor
  · refine ((first_match_wins libQ { cat_100 with mouse_nearby := true } 1 4 4
      (constRng 0)).1 rfl ?_ ?_ rfl).1
    · norm_num [cat_100_eq]
    · rw [randf_zero_one, rand_unit_libQ_zero]
      norm_num
  · refine ((first_match_wins libQ { cat_examining with mouse_nearby := true } 1 9 9
      (constRng 0)).2 rfl ?_ rfl).1
    simp [randf, rand_unit_libQ_zero, cat_examining, cat_100_eq]
    norm_num

/-- C16: from the examining state with
`examine_duration_min <= examine_duration_max` and the draw
`u = (float)rand() / RAND_MAX` in `[0, 1]`, `cat_behavior_tick` moves to the
wandering state exactly when the dwell time exceeds
`examine_duration_min + u * (examine_duration_max - examine_duration_min)`.
So it never does while the dwell time is at most `examine_duration_min`, and
always does once the dwell time exceeds `examine_duration_max`. -/
theorem examining_exit_iff (L : CLib F) (cat : cat_behavior_t F) (seconds : F)
    (current_time entry_time : Int) (g : Rng)
    (he : cat.state = CAT_STATE_EXAMINING)
    (hmm : cat.examine_duration_min ≤ cat.examine_duration_max)
    (hu0 : 0 ≤ rand_unit L g) (hu1 : rand_unit L g ≤ 1) :
    ((cat_behavior_tick L cat seconds current_time entry_time g).1.state
        = CAT_STATE_WANDERING ↔
      ((current_time - cat.state_start_time : Int) : F)
        > cat.examine_duration_min
          + rand_unit L g * (cat.examine_duration_max - cat.examine_duration_min)) ∧
    (((current_time - cat.state_start_time : Int) : F) ≤ cat.examine_duration_min →
      (cat_behavior_tick L cat seconds current_time entry_time g).1.state
        ≠ CAT_STATE_WANDERING) ∧
    (((current_time - cat.state_start_time : Int) : F) > cat.examine_duration_max →
      (cat_behavior_tick L cat seconds current_time entry_time g).1.state
        = CAT_STATE_WANDERING) := by
  have key : ((cat_behavior_tick L cat seconds current_time entry_time g).1.state
        = CAT_STATE_WANDERING ↔
      ((current_time - cat.state_start_time : Int) : F)
        > cat.examine_duration_min
          + rand_unit L g * (cat.examine_duration_max - cat.examine_duration_min)) := by
    rw [cat_behavior_tick_state]
    unfold tick_transition
    rw [he]
    dsimp only
    have hr : (randf L g cat.examine_duration_min cat.examine_duration_max).1
        = cat.examine_duration_min
          + rand_unit L g * (cat.examine_duration_max - cat.examine_duration_min) := rfl
    rw [hr]
    split_ifs with h1 h2
    · exact ⟨fun _ => h1, fun _ => rfl⟩
    · rw [start_retreat_state]
      exact ⟨fun h => absurd h (by decide), fun h => absurd h h1⟩
    · rw [he]
      exact ⟨fun h => absurd h (by decide), fun h => absurd h h1⟩
  have hd : 0 ≤ cat.examine_duration_max - cat.examine_duration_min := sub_nonneg.mpr hmm
  have hlo : cat.examine_duration_min
      ≤ cat.examine_duration_min
        + rand_unit L g * (cat.examine_duration_max - cat.examine_duration_min) :=
    le_add_of_nonneg_right (mul_nonneg hu0 hd)
  have hhi : cat.examine_duration_min
        + rand_unit L g * (cat.examine_duration_max - cat.examine_duration_min)
      ≤ cat.examine_duration_max := by
    have h := mul_le_mul_of_nonneg_right hu1 hd
    linarith
  refine ⟨key, ?_, ?_⟩
  · intro hle hw
    exact absurd (key.mp hw) (not_lt.mpr (le_trans hle hlo))
  · intro hgt
    exact key.mpr (lt_of_le_of_lt hhi hgt)

/-- C16 at a concrete input: the cat examining since time 4 with durations
1.5 to 4, ticked at time 9 with draw 1: the dwell time 5 exceeds 4 and the
state becomes wandering. -/
theorem examining_exit_iff_witness :
    (cat_examining.state = CAT_STATE_EXAMINING ∧
      cat_examining.examine_duration_min ≤ cat_examining.examine_duration_max ∧
      0 ≤ rand_unit libQ (constRng 2147483647) ∧ rand_unit libQ (constRng 2147483647) ≤ 1) ∧
    (cat_behavior_tick libQ cat_examining 1 9 9 (constRng 2147483647)).1.state
      = CAT_STATE_WANDERING := by
  have h1 : cat_examining.examine_duration_min ≤ cat_examining.examine_duration_max := by
    norm_num [cat_examining, cat_100_eq]
  have h2 : 0 ≤ rand_unit libQ (constRng 2147483647) := by
    rw [rand_unit_libQ_max]
    norm_num
  have h3 : rand_unit libQ (constRng 2147483647) ≤ 1 := by
    rw [rand_unit_libQ_max]
  refine ⟨⟨rfl, h1, h2, h3⟩, ?_⟩
  refine (examining_exit_iff libQ cat_examining 1 9 9 (constRng 2147483647) rfl h1 h2 h3).2.2 ?_
  norm_num [cat_examining, cat_100_eq]

/-! ## Transitions change the state -/

/-- The state-transition switch either leaves the controller state as it is,
or applies one entry action, which changes the behaviour state and stores the
clock reading of the entry. -/
theorem tick_transition_cases (L : CLib F) (cat : cat_behavior_t F)
    (current_time entry_time : Int) (g : Rng) :
    (tick_transition L cat current_time entry_time g).1 = cat ∨
    ((tick_transition L cat current_time entry_time g).1.state ≠ cat.state ∧
      (tick_transition L cat current_time entry_time g).1.state_start_time = entry_time ∧
      ((∃ g2 : Rng, (tick_transition L cat current_time entry_time g).1
          = (start_examining L cat entry_time g2).1) ∨
        (∃ g2 : Rng, (tick_transition L cat current_time entry_time g).1
          = (start_wandering L cat entry_time g2).1) ∨
        (tick_transition L cat current_time entry_time g).1
          = start_retreat L cat entry_time)) := by
  have hrt : (start_retreat L cat entry_time).state_start_time = entry_time := by
    unfold start_retreat
    dsimp only
    split_ifs <;> rfl
  unfold tick_transition
  cases hst : cat.state
  · dsimp only
    split_ifs
    · exact Or.inr ⟨by rw [start_examining_state]; decide, rfl, Or.inl ⟨_, rfl⟩⟩
    · exact Or.inr ⟨by rw [start_retreat_state]; decide, hrt, Or.inr (Or.inr rfl)⟩
    · exact Or.inl rfl
    · exact Or.inr ⟨by rw [start_retreat_state]; decide, hrt, Or.inr (Or.inr rfl)⟩
    · exact Or.inl rfl
  · dsimp only
    split_ifs
    · exact Or.inr ⟨by rw [start_wandering_state]; decide, rfl, Or.inr (Or.inl ⟨_, rfl⟩)⟩
    · exact Or.inr ⟨by rw [start_retreat_state]; decide, hrt, Or.inr (Or.inr rfl)⟩
    · exact Or.inl rfl
  · dsimp only
    split_ifs
    · exact Or.inr ⟨by rw [start_wandering_state]; decide, rfl, Or.inr (Or.inl ⟨_, rfl⟩)⟩
    · exact Or.inr ⟨by rw [start_examining_state]; decide, rfl, Or.inl ⟨_, rfl⟩⟩
    · exact Or.inl rfl

theorem tick_transition_same_state (L : CLib F) (cat : cat_behavior_t F)
    (current_time entry_time : Int) (g : Rng)
    (h : (tick_transition L cat current_time entry_time g).1.state = cat.state) :
    (tick_transition L cat current_time entry_time g).1 = cat := by
  rcases tick_transition_cases L cat current_time entry_time g with h1 | h1
  · exact h1
  · exact absurd h h1.1

theorem tick_transition_to_retreat (L : CLib F) (cat : cat_behavior_t F)
    (current_time entry_time : Int) (g : Rng)
    (hpre : cat.state ≠ CAT_STATE_RETREATING)
    (hpost : (tick_transition L cat current_time entry_time g).1.state
      = CAT_STATE_RETREATING) :
    (tick_transition L cat current_time entry_time g).1 = start_retreat L cat entry_time := by
  rcases tick_transition_cases L cat current_time entry_time g with h1 | ⟨-, -, h1⟩
  · rw [h1] at hpost
    exact absurd hpost hpre
  · rcases h1 with ⟨g2, h2⟩ | ⟨g2, h2⟩ | h2
    · rw [h2, start_examining_state] at hpost
      exact absurd hpost (by decide)
    · rw [h2, start_wandering_state] at hpost
      exact absurd hpost (by decide)
    · exact h2

/-- C18: after a tick, `state_start_time` is the clock reading of the entry
action if the state after the tick differs from the state before it, and is
unchanged if the state is the same.  Every transition that fires changes the
state: the switch either leaves the controller state as it is or applies one
of `start_examining`, `start_wandering`, `start_retreat` to it, and then the
state differs from the one before.  The entry action reads the clock itself;
when it reads what the tick read, the stored time is the clock reading of the
tick. -/
theorem state_start_time_reset_iff (L : CLib F) (cat : cat_behavior_t F) (seconds : F)
    (current_time entry_time : Int) (g : Rng) :
    ((cat_behavior_tick L cat seconds current_time entry_time g).1.state ≠ cat.state →
      (cat_behavior_tick L cat seconds current_time entry_time g).1.state_start_time
        = entry_time) ∧
    ((cat_behavior_tick L cat seconds current_time entry_time g).1.state = cat.state →
      (cat_behavior_tick L cat seconds current_time entry_time g).1.state_start_time
        = cat.state_start_time) ∧
    ((tick_transition L cat current_time entry_time g).1 = cat ∨
      ((cat_behavior_tick L cat seconds current_time entry_time g).1.state ≠ cat.state ∧
        ((∃ g2 : Rng, (tick_transition L cat current_time entry_time g).1
            = (start_examining L cat entry_time g2).1) ∨
          (∃ g2 : Rng, (tick_transition L cat current_time entry_time g).1
            = (start_wandering L cat entry_time g2).1) ∨
          (tick_transition L cat current_time entry_time g).1
            = start_retreat L cat entry_time))) ∧
    (entry_time = current_time →
      (cat_behavior_tick L cat seconds current_time entry_time g).1.state ≠ cat.state →
      (cat_behavior_tick L cat seconds current_time entry_time g).1.state_start_time
        = current_time) := by
  rw [cat_behavior_tick_state, cat_behavior_tick_start_time]
  rcases tick_transition_cases L cat current_time entry_time g with h1 | ⟨h1, h2, h3⟩
  · refine ⟨fun h => ?_, fun _ => ?_, Or.inl h1, fun _ h => ?_⟩
    · rw [h1] at h
      exact absurd rfl h
    · rw [h1]
    · rw [h1] at h
      exact absurd rfl h
  · exact ⟨fun _ => h2, fun h => absurd h h1, Or.inr ⟨h1, h3⟩, fun he _ => h2.trans he⟩

/-- C18 at a concrete input: the wandering cat `cat_100` (since time 0), ticked
with clock reading 4 and draw 0, becomes examining and `state_start_time`
becomes 4. -/
theorem state_start_time_reset_iff_witness :
    (cat_behavior_tick libQ cat_100 1 4 4 (constRng 0)).1.state ≠ cat_100.state ∧
    (cat_behavior_tick libQ cat_100 1 4 4 (constRng 0)).1.state_start_time = 4 := by
  have h : (cat_behavior_tick libQ cat_100 1 4 4 (constRng 0)).1.state ≠ cat_100.state := by
    rw [tick_cat_100_examining_eq]
    simp [cat_examining, cat_100_eq]
  exact ⟨h, (state_start_time_reset_iff libQ cat_100 1 4 4 (constRng 0)).1 h⟩

/-- C17: the position update of a tick uses the velocity as the transition
step left it: the position before the boundary check is the old position plus
that velocity times the frame time.  When no boundary is crossed this is the
position after the tick; then a tick that enters the examining state leaves
the position as it was, a tick that enters the retreating state moves the cat
by the new retreat velocity times the frame time, and a tick that keeps the
state moves it by the old velocity times the frame time. -/
theorem tick_integrates_new_velocity (L : CLib F) (cat : cat_behavior_t F) (seconds : F)
    (current_time entry_time : Int) (g : Rng) :
    ((tick_integrated L cat seconds current_time entry_time g).x
        = cat.x + (tick_transition L cat current_time entry_time g).1.vx * seconds ∧
      (tick_integrated L cat seconds current_time entry_time g).y
        = cat.y + (tick_transition L cat current_time entry_time g).1.vy * seconds) ∧
    (tick_bounced L cat seconds current_time entry_time g = false →
      ((cat_behavior_tick L cat seconds current_time entry_time g).1.x
          = cat.x + (tick_transition L cat current_time entry_time g).1.vx * seconds ∧
        (cat_behavior_tick L cat seconds current_time entry_time g).1.y
          = cat.y + (tick_transition L cat current_time entry_time g).1.vy * seconds) ∧
      (cat.state ≠ CAT_STATE_EXAMINING →
        (cat_behavior_tick L cat seconds current_time entry_time g).1.state
          = CAT_STATE_EXAMINING →
        (cat_behavior_tick L cat seconds current_time entry_time g).1.x = cat.x ∧
        (cat_behavior_tick L cat seconds current_time entry_time g).1.y = cat.y) ∧
      (cat.state ≠ CAT_STATE_RETREATING →
        (cat_behavior_tick L cat seconds current_time entry_time g).1.state
          = CAT_STATE_RETREATING →
        (cat_behavior_tick L cat seconds current_time entry_time g).1.x
          = cat.x + (start_retreat L cat entry_time).vx * seconds ∧
        (cat_behavior_tick L cat seconds current_time entry_time g).1.y
          = cat.y + (start_retreat L cat entry_time).vy * seconds) ∧
      ((cat_behavior_tick L cat seconds current_time entry_time g).1.state = cat.state →
        (cat_behavior_tick L cat seconds current_time entry_time g).1.x
          = cat.x + cat.vx * seconds ∧
        (cat_behavior_tick L cat seconds current_time entry_time g).1.y
          = cat.y + cat.vy * seconds)) := by
  obtain ⟨fx, fy, -⟩ := tick_transition_frame L cat current_time entry_time g
  have hint : (tick_integrated L cat seconds current_time entry_time g).x
        = cat.x + (tick_transition L cat current_time entry_time g).1.vx * seconds ∧
      (tick_integrated L cat seconds current_time entry_time g).y
        = cat.y + (tick_transition L cat current_time entry_time g).1.vy * seconds := by
    unfold tick_integrated tick_integrate
    dsimp only
    rw [fx, fy]
    exact ⟨rfl, rfl⟩
  refine ⟨hint, ?_⟩
  intro hnb
  have hfin := cat_behavior_tick_of_not_bounced L cat seconds current_time entry_time g hnb
  rw [cat_behavior_tick_state, hfin]
  refine ⟨hint, ?_, ?_, ?_⟩
  · intro hpre hpost
    obtain ⟨h1, h2⟩ := tick_transition_examining_velocity L cat current_time entry_time g
      (fun h => absurd h hpre) hpost
    rw [hint.1, hint.2, h1, h2]
    constructor <;> ring
  · intro hpre hpost
    rw [hint.1, hint.2,
      tick_transition_to_retreat L cat current_time entry_time g hpre hpost]
    exact ⟨rfl, rfl⟩
  · intro hsame
    rw [hint.1, hint.2, tick_transition_same_state L cat current_time entry_time g hsame]
    exact ⟨rfl, rfl⟩

theorem qsqrt_100 : qsqrt 100 = 10 := by
  have h0 := qsqrt_mul_self 10 (by norm_num)
  norm_num at h0
  exact h0

theorem cat_pointer_near_eq :
    cat_pointer_near = { cat_100 with mouse_x := 60, mouse_y := 50, mouse_nearby := true } := by
  simp [cat_pointer_near, cat_behavior_set_mouse_position, cat_100_eq, libQ, qsqrt_100]
  norm_num [qsqrt_100]

theorem tick_cat_pointer_near_state :
    (cat_behavior_tick libQ cat_pointer_near (1 / 10) 0 0 (constRng 0)).1.state
      = CAT_STATE_RETREATING := by
  rw [cat_behavior_tick_state, cat_pointer_near_eq]
  simp [tick_transition, cat_100_eq, start_retreat_state]
  norm_num [start_retreat_state]

theorem start_retreat_cat_pointer_near :
    (start_retreat libQ cat_pointer_near 0).vx = -90 ∧
    (start_retreat libQ cat_pointer_near 0).vy = 0 := by
  rw [cat_pointer_near_eq]
  simp [start_retreat, cat_100_eq, libQ, qsqrt_100]
  norm_num [qsqrt_100]

theorem tick_cat_pointer_near_not_bounced :
    tick_bounced libQ cat_pointer_near (1 / 10) 0 0 (constRng 0) = false := by
  have hv := start_retreat_cat_pointer_near
  have ht : (tick_transition libQ cat_pointer_near 0 0 (constRng 0)).1
      = start_retreat libQ cat_pointer_near 0 := by
    apply tick_transition_to_retreat
    · rw [cat_pointer_near_eq]
      simp [cat_100_eq]
    · have h := tick_cat_pointer_near_state
      rw [cat_behavior_tick_state] at h
      exact h
  have hf : (start_retreat libQ cat_pointer_near 0).x = 50 ∧
      (start_retreat libQ cat_pointer_near 0).y = 50 ∧
      (start_retreat libQ cat_pointer_near 0).screen_width = 100 ∧
      (start_retreat libQ cat_pointer_near 0).screen_height = 100 ∧
      (start_retreat libQ cat_pointer_near 0).texture_width = 0 ∧
      (start_retreat libQ cat_pointer_near 0).texture_height = 0 := by
    rw [cat_pointer_near_eq]
    unfold start_retreat
    dsimp only
    split_ifs <;> simp [cat_100_eq]
  obtain ⟨f1, f2, f3, f4, f5, f6⟩ := hf
  unfold tick_bounced tick_integrated
  rw [ht]
  simp [tick_bounce, tick_bounce_x, tick_bounce_y, tick_integrate, hv.1, hv.2, f1, f2, f3, f4,
    f5, f6]
  norm_num

/-- C17 at a concrete input: the wandering cat at (50, 50) with the pointer
nearby at (60, 50), ticked for a tenth of a second: the tick enters the
retreating state with velocity (-90, 0) and, no boundary being crossed, ends
at (41, 50), the old position plus the new velocity times the frame time. -/
theorem tick_integrates_new_velocity_witness :
    tick_bounced libQ cat_pointer_near (1 / 10) 0 0 (constRng 0) = false ∧
    cat_pointer_near.state ≠ CAT_STATE_RETREATING ∧
    (cat_behavior_tick libQ cat_pointer_near (1 / 10) 0 0 (constRng 0)).1.state
      = CAT_STATE_RETREATING ∧
    (cat_behavior_tick libQ cat_pointer_near (1 / 10) 0 0 (constRng 0)).1.x = 41 ∧
    (cat_behavior_tick libQ cat_pointer_near (1 / 10) 0 0 (constRng 0)).1.y = 50 := by
  have hpre : cat_pointer_near.state ≠ CAT_STATE_RETREATING := by
    rw [cat_pointer_near_eq]
    simp [cat_100_eq]
  obtain ⟨hx, hy⟩ := ((tick_integrates_new_velocity libQ cat_pointer_near (1 / 10) 0 0
    (constRng 0)).2 tick_cat_pointer_near_not_bounced).2.2.1 hpre tick_cat_pointer_near_state
  refine ⟨tick_cat_pointer_near_not_bounced, hpre, tick_cat_pointer_near_state, ?_, ?_⟩
  · rw [hx, start_retreat_cat_pointer_near.1, cat_pointer_near_eq]
    simp [cat_100_eq]
    norm_num
  · rw [hy, start_retreat_cat_pointer_near.2, cat_pointer_near_eq]
    simp [cat_100_eq]

/-! ## The velocity since it was last assigned -/

theorem tick_bounce_x_snd_vx (cat : cat_behavior_t F) :
    (tick_bounce_x cat).1.vx = if (tick_bounce_x cat).2 then -0.7 * cat.vx else cat.vx := by
  unfold tick_bounce_x
  split_ifs <;> simp_all <;> ring

theorem tick_bounce_y_snd_vy (cat : cat_behavior_t F) :
    (tick_bounce_y cat).1.vy = if (tick_bounce_y cat).2 then -0.7 * cat.vy else cat.vy := by
  unfold tick_bounce_y
  split_ifs <;> simp_all <;> ring

theorem tick_perturbed_state (L : CLib F) (cat : cat_behavior_t F) (seconds : F)
    (current_time entry_time : Int) (g : Rng)
    (hp : tick_perturbed L cat seconds current_time entry_time g = true) :
    (tick_transition L cat current_time entry_time g).1.state = CAT_STATE_WANDERING := by
  unfold tick_perturbed at hp
  simp only [Bool.and_eq_true, decide_eq_true_eq] at hp
  exact hp.1.2

/-- Without a change of direction, the velocity after a tick is the velocity
the state-transition switch left, with `-0.7` applied on each axis that
bounced. -/
theorem cat_behavior_tick_velocity (L : CLib F) (cat : cat_behavior_t F) (seconds : F)
    (current_time entry_time : Int) (g : Rng)
    (hp : tick_perturbed L cat seconds current_time entry_time g = false) :
    (cat_behavior_tick L cat seconds current_time entry_time g).1.vx
      = (if tick_bounced_x L cat seconds current_time entry_time g then
          -0.7 * (tick_transition L cat current_time entry_time g).1.vx
         else (tick_transition L cat current_time entry_time g).1.vx) ∧
    (cat_behavior_tick L cat seconds current_time entry_time g).1.vy
      = (if tick_bounced_y L cat seconds current_time entry_time g then
          -0.7 * (tick_transition L cat current_time entry_time g).1.vy
         else (tick_transition L cat current_time entry_time g).1.vy) := by
  have hfin : (cat_behavior_tick L cat seconds current_time entry_time g).1
      = (tick_bounce (tick_integrated L cat seconds current_time entry_time g)).1 := by
    unfold tick_perturbed tick_bounced at hp
    unfold cat_behavior_tick
    dsimp only
    apply tick_perturb_of_not
    simp only [Bool.and_eq_false_iff, decide_eq_false_iff_not, not_lt] at hp
    rcases hp with (h | h) | h
    · exact Or.inl h
    · right
      left
      rw [tick_bounce_state, tick_integrate_state]
      exact h
    · exact Or.inr (Or.inr h)
  rw [hfin]
  unfold tick_bounced_x tick_bounced_y
  constructor
  · show (tick_bounce_y (tick_bounce_x
        (tick_integrated L cat seconds current_time entry_time g)).1).1.vx = _
    rw [(tick_bounce_y_frame _).2, tick_bounce_x_snd_vx]
    rfl
  · show (tick_bounce_y (tick_bounce_x
        (tick_integrated L cat seconds current_time entry_time g)).1).1.vy = _
    rw [tick_bounce_y_snd_vy, (tick_bounce_x_frame _).2.1]
    rfl

theorem damp_step (v u : F) (k : Nat) (b : Bool) (h : v = (-0.7) ^ k * u) :
    (if b then -0.7 * v else v) = (-0.7) ^ (k + (if b then 1 else 0)) * u := by
  cases b
  · simpa using h
  · simp only [if_true]
    rw [h, pow_succ]
    ring

theorem damp_first (v : F) (b : Bool) :
    (if b then -0.7 * v else v) = (-0.7) ^ (if b then 1 else 0) * v := by
  cases b <;> simp

/-- One tick and the retreat velocity. -/
theorem tick_retreat_damped (L : CLib F)
    (hsqrt : ∀ q : F, 0 ≤ q → 0 ≤ L.sqrtf q ∧ L.sqrtf q * L.sqrtf q = q)
    (cat : cat_behavior_t F) (seconds : F) (current_time entry_time : Int) (g : Rng)
    (p : VelocityTrace)
    (hinv : cat.state = CAT_STATE_RETREATING →
      damped_velocity cat p (cat.base_speed * cat.retreat_speed_multiplier
        * (cat.base_speed * cat.retreat_speed_multiplier)))
    (hr : (cat_behavior_tick L cat seconds current_time entry_time g).1.state
      = CAT_STATE_RETREATING) :
    damped_velocity (cat_behavior_tick L cat seconds current_time entry_time g).1
      (tick_trace L cat seconds current_time entry_time g p)
      (cat.base_speed * cat.retreat_speed_multiplier
        * (cat.base_speed * cat.retreat_speed_multiplier)) := by
  rw [cat_behavior_tick_state] at hr
  have hp : tick_perturbed L cat seconds current_time entry_time g = false := by
    cases h : tick_perturbed L cat seconds current_time entry_time g
    · rfl
    · have h2 := tick_perturbed_state L cat seconds current_time entry_time g h
      rw [hr] at h2
      exact absurd h2 (by decide)
  obtain ⟨hvx, hvy⟩ := cat_behavior_tick_velocity L cat seconds current_time entry_time g hp
  unfold tick_trace
  rw [hp]
  simp only [Bool.false_eq_true, if_false]
  by_cases hs : (tick_transition L cat current_time entry_time g).1.state = cat.state
  · rw [if_pos hs]
    have ht := tick_transition_same_state L cat current_time entry_time g hs
    obtain ⟨ux, uy, hu, h1, h2⟩ := hinv (hs.symm.trans hr)
    refine ⟨ux, uy, hu, ?_, ?_⟩
    · rw [hvx, ht]
      exact damp_step _ _ _ _ h1
    · rw [hvy, ht]
      exact damp_step _ _ _ _ h2
  · rw [if_neg hs]
    have hpre : cat.state ≠ CAT_STATE_RETREATING := fun h => hs (hr.trans h.symm)
    have ht := tick_transition_to_retreat L cat current_time entry_time g hpre hr
    refine ⟨(start_retreat L cat entry_time).vx, (start_retreat L cat entry_time).vy,
      start_retreat_speed_sq L cat entry_time hsqrt, ?_, ?_⟩
    · rw [hvx, ht]
      exact damp_first _ _
    · rw [hvy, ht]
      exact damp_first _ _

theorem run_retreat_damped (L : CLib F)
    (hsqrt : ∀ q : F, 0 ≤ q → 0 ≤ L.sqrtf q ∧ L.sqrtf q * L.sqrtf q = q)
    (bs m : F) (calls : List (Call F)) :
    ∀ (cat : cat_behavior_t F) (p : VelocityTrace),
      cat.base_speed = bs → cat.retreat_speed_multiplier = m →
      (cat.state = CAT_STATE_RETREATING → damped_velocity cat p (bs * m * (bs * m))) →
      (run_calls L cat calls).state = CAT_STATE_RETREATING →
      damped_velocity (run_calls L cat calls) (run_trace L cat p calls)
        (bs * m * (bs * m)) := by
  induction calls with
  | nil =>
    intro cat p _ _ hinv hr
    exact hinv hr
  | cons c cs ih =>
    intro cat p hbs hm hinv hr
    cases c with
    | set_mouse_position x y =>
      exact ih (cat_behavior_set_mouse_position L cat x y) p hbs hm hinv hr
    | tick f =>
      obtain ⟨s1, s2⟩ :=
        cat_behavior_tick_speeds L cat f.seconds f.current_time f.entry_time f.rng
      refine ih (cat_behavior_tick L cat f.seconds f.current_time f.entry_time f.rng).1
        (tick_trace L cat f.seconds f.current_time f.entry_time f.rng p)
        (s1.trans hbs) (s2.trans hm) ?_ hr
      intro hr1
      have h := tick_retreat_damped L hsqrt cat f.seconds f.current_time f.entry_time f.rng p
        (by rw [hbs, hm]; exact hinv) hr1
      rw [hbs, hm] at h
      exact h

/-- C9 (amended): start from `cat_behavior_init`, let the host set the
configuration once (positive speeds), and make any sequence of
`cat_behavior_set_mouse_position` and `cat_behavior_tick` calls.  Whenever the
state at the end is retreating, the velocity is a vector of length
`base_speed * retreat_speed_multiplier` (the velocity `start_retreat`
assigned at the latest entry into the retreating state; lengths are stated on
squares) with its x component multiplied by `-0.7` once for every tick that
bounced on the x axis since that entry, and likewise for y.  In particular
the length is `base_speed * retreat_speed_multiplier` when no tick has bounced
since the latest entry.  A tick that starts and ends in the retreating state
leaves each velocity component as it is, or multiplies it by `-0.7` if it
bounced on that axis: a damped speed is not restored while the retreat lasts.
`sqrtf` is taken to be the exact square root. -/
theorem retreat_velocity_since_entry (L : CLib F)
    (hsqrt : ∀ q : F, 0 ≤ q → 0 ≤ L.sqrtf q ∧ L.sqrtf q * L.sqrtf q = q)
    (screen_width screen_height : Nat) (now : Int) (g : Rng)
    (bs m r emin emax wci : F) (hbs : 0 < bs) (hm : 0 < m) (calls : List (Call F))
    (hr : (run_calls L
      (set_config (cat_behavior_init L screen_width screen_height now g).1 bs m r emin emax wci)
      calls).state = CAT_STATE_RETREATING) :
    0 < bs * m ∧
    (∃ ux uy : F, ux * ux + uy * uy = bs * m * (bs * m) ∧
      (run_calls L
        (set_config (cat_behavior_init L screen_width screen_height now g).1
          bs m r emin emax wci) calls).vx
        = (-0.7) ^ (run_trace L
            (set_config (cat_behavior_init L screen_width screen_height now g).1
              bs m r emin emax wci) VelocityTrace.start calls).bounces_x * ux ∧
      (run_calls L
        (set_config (cat_behavior_init L screen_width screen_height now g).1
          bs m r emin emax wci) calls).vy
        = (-0.7) ^ (run_trace L
            (set_config (cat_behavior_init L screen_width screen_height now g).1
              bs m r emin emax wci) VelocityTrace.start calls).bounces_y * uy) ∧
    ((run_trace L
        (set_config (cat_behavior_init L screen_width screen_height now g).1
          bs m r emin emax wci) VelocityTrace.start calls).bounces_x = 0 →
      (run_trace L
        (set_config (cat_behavior_init L screen_width screen_height now g).1
          bs m r emin emax wci) VelocityTrace.start calls).bounces_y = 0 →
      speed_sq (run_calls L
        (set_config (cat_behavior_init L screen_width screen_height now g).1
          bs m r emin emax wci) calls) = bs * m * (bs * m)) ∧
    (∀ (cat : cat_behavior_t F) (seconds : F) (current_time entry_time : Int) (g2 : Rng),
      cat.state = CAT_STATE_RETREATING →
      (cat_behavior_tick L cat seconds current_time entry_time g2).1.state
        = CAT_STATE_RETREATING →
      (cat_behavior_tick L cat seconds current_time entry_time g2).1.vx
        = (if tick_bounced_x L cat seconds current_time entry_time g2 then -0.7 * cat.vx
           else cat.vx) ∧
      (cat_behavior_tick L cat seconds current_time entry_time g2).1.vy
        = (if tick_bounced_y L cat seconds current_time entry_time g2 then -0.7 * cat.vy
           else cat.vy)) := by
  have hd := run_retreat_damped L hsqrt bs m calls
    (set_config (cat_behavior_init L screen_width screen_height now g).1 bs m r emin emax wci)
    VelocityTrace.start rfl rfl
    (fun h => absurd h (by simp [set_config, cat_behavior_init])) hr
  refine ⟨mul_pos hbs hm, hd, ?_, ?_⟩
  · intro hx hy
    obtain ⟨ux, uy, hu, h1, h2⟩ := hd
    rw [hx, pow_zero, one_mul] at h1
    rw [hy, pow_zero, one_mul] at h2
    unfold speed_sq
    rw [h1, h2]
    exact hu
  · intro cat seconds current_time entry_time g2 hpre hpost
    have hpost2 := hpost
    rw [cat_behavior_tick_state] at hpost2
    have hp : tick_perturbed L cat seconds current_time entry_time g2 = false := by
      cases h : tick_perturbed L cat seconds current_time entry_time g2
      · rfl
      · have h2 := tick_perturbed_state L cat seconds current_time entry_time g2 h
        rw [hpost2] at h2
        exact absurd h2 (by decide)
    have ht := tick_transition_same_state L cat current_time entry_time g2
      (hpost2.trans hpre.symm)
    have hv := cat_behavior_tick_velocity L cat seconds current_time entry_time g2 hp
    rw [ht] at hv
    exact hv

/-! ## The wandering velocity since it was last assigned -/

theorem tick_transition_to_wandering (L : CLib F) (cat : cat_behavior_t F)
    (current_time entry_time : Int) (g : Rng)
    (hpre : cat.state ≠ CAT_STATE_WANDERING)
    (hpost : (tick_transition L cat current_time entry_time g).1.state
      = CAT_STATE_WANDERING) :
    ∃ g2 : Rng, (tick_transition L cat current_time entry_time g).1
      = (start_wandering L cat entry_time g2).1 := by
  rcases tick_transition_cases L cat current_time entry_time g with h1 | ⟨-, -, h1⟩
  · rw [h1] at hpost
    exact absurd hpost hpre
  · rcases h1 with ⟨g2, h2⟩ | ⟨g2, h2⟩ | h2
    · rw [h2, start_examining_state] at hpost
      exact absurd hpost (by decide)
    · exact ⟨g2, h2⟩
    · rw [h2, start_retreat_state] at hpost
      exact absurd hpost (by decide)

theorem cat_behavior_tick_perturbed_speed (L : CLib F) (cat : cat_behavior_t F)
    (seconds : F) (current_time entry_time : Int) (g : Rng)
    (hcs : ∀ a : F, L.cosf a * L.cosf a + L.sinf a * L.sinf a = 1)
    (hp : tick_perturbed L cat seconds current_time entry_time g = true) :
    speed_sq (cat_behavior_tick L cat seconds current_time entry_time g).1
      = cat.base_speed * cat.base_speed := by
  unfold tick_perturbed at hp
  simp only [Bool.and_eq_true, decide_eq_true_eq] at hp
  obtain ⟨⟨hb, hw⟩, hdraw⟩ := hp
  unfold tick_bounced tick_integrated at hb
  unfold cat_behavior_tick
  dsimp only
  rw [tick_perturb_speed_sq L _ _ _ hcs hb (by rw [tick_bounce_state]; exact hw) hdraw]
  rw [(tick_bounce_speeds _).1]
  show (tick_transition L cat current_time entry_time g).1.base_speed
    * (tick_transition L cat current_time entry_time g).1.base_speed = _
  rw [(tick_transition_speeds L cat current_time entry_time g).1]

/-- One tick and the wandering velocity. -/
theorem tick_wander_damped (L : CLib F)
    (hcs : ∀ a : F, L.cosf a * L.cosf a + L.sinf a * L.sinf a = 1)
    (cat : cat_behavior_t F) (seconds : F) (current_time entry_time : Int) (g : Rng)
    (p : VelocityTrace)
    (hinv : cat.state = CAT_STATE_WANDERING →
      damped_velocity cat p
        (if p.from_init then 30 * 30 else cat.base_speed * cat.base_speed))
    (hw : (cat_behavior_tick L cat seconds current_time entry_time g).1.state
      = CAT_STATE_WANDERING) :
    damped_velocity (cat_behavior_tick L cat seconds current_time entry_time g).1
      (tick_trace L cat seconds current_time entry_time g p)
      (if (tick_trace L cat seconds current_time entry_time g p).from_init then 30 * 30
       else cat.base_speed * cat.base_speed) := by
  cases hp : tick_perturbed L cat seconds current_time entry_time g
  · obtain ⟨hvx, hvy⟩ := cat_behavior_tick_velocity L cat seconds current_time entry_time g hp
    rw [cat_behavior_tick_state] at hw
    unfold tick_trace
    rw [hp]
    simp only [Bool.false_eq_true, if_false]
    by_cases hs : (tick_transition L cat current_time entry_time g).1.state = cat.state
    · rw [if_pos hs]
      have ht := tick_transition_same_state L cat current_time entry_time g hs
      obtain ⟨ux, uy, hu, h1, h2⟩ := hinv (hs.symm.trans hw)
      refine ⟨ux, uy, hu, ?_, ?_⟩
      · rw [hvx, ht]
        exact damp_step _ _ _ _ h1
      · rw [hvy, ht]
        exact damp_step _ _ _ _ h2
    · rw [if_neg hs]
      have hpre : cat.state ≠ CAT_STATE_WANDERING := fun h => hs (hw.trans h.symm)
      obtain ⟨g2, ht⟩ := tick_transition_to_wandering L cat current_time entry_time g hpre hw
      refine ⟨(start_wandering L cat entry_time g2).1.vx,
        (start_wandering L cat entry_time g2).1.vy, ?_, ?_, ?_⟩
      · simp only [Bool.false_eq_true, if_false]
        exact start_wandering_speed_sq L cat entry_time g2 hcs
      · rw [hvx, ht]
        exact damp_first _ _
      · rw [hvy, ht]
        exact damp_first _ _
  · unfold tick_trace
    rw [hp]
    simp only [if_true, Bool.false_eq_true, if_false]
    refine ⟨(cat_behavior_tick L cat seconds current_time entry_time g).1.vx,
      (cat_behavior_tick L cat seconds current_time entry_time g).1.vy,
      cat_behavior_tick_perturbed_speed L cat seconds current_time entry_time g hcs hp, ?_, ?_⟩
    · simp
    · simp

theorem run_wander_damped (L : CLib F)
    (hcs : ∀ a : F, L.cosf a * L.cosf a + L.sinf a * L.sinf a = 1)
    (bs : F) (calls : List (Call F)) :
    ∀ (cat : cat_behavior_t F) (p : VelocityTrace),
      cat.base_speed = bs →
      (cat.state = CAT_STATE_WANDERING →
        damped_velocity cat p (if p.from_init then 30 * 30 else bs * bs)) →
      (run_calls L cat calls).state = CAT_STATE_WANDERING →
      damped_velocity (run_calls L cat calls) (run_trace L cat p calls)
        (if (run_trace L cat p calls).from_init then 30 * 30 else bs * bs) := by
  induction calls with
  | nil =>
    intro cat p _ hinv hw
    exact hinv hw
  | cons c cs ih =>
    intro cat p hbs hinv hw
    cases c with
    | set_mouse_position x y =>
      exact ih (cat_behavior_set_mouse_position L cat x y) p hbs hinv hw
    | tick f =>
      obtain ⟨s1, -⟩ :=
        cat_behavior_tick_speeds L cat f.seconds f.current_time f.entry_time f.rng
      refine ih (cat_behavior_tick L cat f.seconds f.current_time f.entry_time f.rng).1
        (tick_trace L cat f.seconds f.current_time f.entry_time f.rng p)
        (s1.trans hbs) ?_ hw
      intro hw1
      have h := tick_wander_damped L hcs cat f.seconds f.current_time f.entry_time f.rng p
        (by rw [hbs]; exact hinv) hw1
      rw [hbs] at h
      exact h

/-- C10 (amended): start from `cat_behavior_init`, let the host set the
configuration once, and make any sequence of `cat_behavior_set_mouse_position`
and `cat_behavior_tick` calls.  Whenever the state at the end is wandering,
the velocity is the vector assigned last (by `cat_behavior_init`, by an entry
into the wandering state or by the change of direction after a bounce) with
its x component multiplied by `-0.7` once for every tick that bounced on the x
axis since then, and likewise for y; the assigned vector has length
`base_speed`, except that the one of `cat_behavior_init` has length 30, the
base speed in force at that moment (lengths are stated on squares).  In
particular the length is `base_speed` when no tick has bounced since the
velocity was assigned, provided it was assigned after `cat_behavior_init` or
`base_speed` is 30.  A tick that starts and ends in the wandering state
without a change of direction leaves each velocity component as it is, or
multiplies it by `-0.7` if it bounced on that axis: a damped speed is not
restored by the next tick.  `cosf` and `sinf` are taken to give a point of
the unit circle. -/
theorem wander_velocity_since_assigned (L : CLib F)
    (hcs : ∀ a : F, L.cosf a * L.cosf a + L.sinf a * L.sinf a = 1)
    (screen_width screen_height : Nat) (now : Int) (g : Rng)
    (bs m r emin emax wci : F) (calls : List (Call F)) :
    ((run_calls L
        (set_config (cat_behavior_init L screen_width screen_height now g).1
          bs m r emin emax wci) calls).state = CAT_STATE_WANDERING →
      ∃ ux uy : F,
        ux * ux + uy * uy
          = (if (run_trace L
              (set_config (cat_behavior_init L screen_width screen_height now g).1
                bs m r emin emax wci) VelocityTrace.start calls).from_init
             then 30 * 30 else bs * bs) ∧
        (run_calls L
          (set_config (cat_behavior_init L screen_width screen_height now g).1
            bs m r emin emax wci) calls).vx
          = (-0.7) ^ (run_trace L
              (set_config (cat_behavior_init L screen_width screen_height now g).1
                bs m r emin emax wci) VelocityTrace.start calls).bounces_x * ux ∧
        (run_calls L
          (set_config (cat_behavior_init L screen_width screen_height now g).1
            bs m r emin emax wci) calls).vy
          = (-0.7) ^ (run_trace L
              (set_config (cat_behavior_init L screen_width screen_height now g).1
                bs m r emin emax wci) VelocityTrace.start calls).bounces_y * uy) ∧
    ((run_calls L
        (set_config (cat_behavior_init L screen_width screen_height now g).1
          bs m r emin emax wci) calls).state = CAT_STATE_WANDERING →
      (run_trace L
        (set_config (cat_behavior_init L screen_width screen_height now g).1
          bs m r emin emax wci) VelocityTrace.start calls).bounces_x = 0 →
      (run_trace L
        (set_config (cat_behavior_init L screen_width screen_height now g).1
          bs m r emin emax wci) VelocityTrace.start calls).bounces_y = 0 →
      ((run_trace L
        (set_config (cat_behavior_init L screen_width screen_height now g).1
          bs m r emin emax wci) VelocityTrace.start calls).from_init = false ∨ bs = 30) →
      speed_sq (run_calls L
        (set_config (cat_behavior_init L screen_width screen_height now g).1
          bs m r emin emax wci) calls) = bs * bs) ∧
    (∀ (cat : cat_behavior_t F) (seconds : F) (current_time entry_time : Int) (g2 : Rng),
      cat.state = CAT_STATE_WANDERING →
      (cat_behavior_tick L cat seconds current_time entry_time g2).1.state
        = CAT_STATE_WANDERING →
      tick_perturbed L cat seconds current_time entry_time g2 = false →
      (cat_behavior_tick L cat seconds current_time entry_time g2).1.vx
        = (if tick_bounced_x L cat seconds current_time entry_time g2 then -0.7 * cat.vx
           else cat.vx) ∧
      (cat_behavior_tick L cat seconds current_time entry_time g2).1.vy
        = (if tick_bounced_y L cat seconds current_time entry_time g2 then -0.7 * cat.vy
           else cat.vy)) := by
  have hstart : damped_velocity
      (set_config (cat_behavior_init L screen_width screen_height now g).1
        bs m r emin emax wci) VelocityTrace.start
      (if VelocityTrace.start.from_init then 30 * 30 else bs * bs) := by
    refine ⟨(cat_behavior_init L screen_width screen_height now g).1.vx,
      (cat_behavior_init L screen_width screen_height now g).1.vy,
      cat_behavior_init_speed_sq L screen_width screen_height now g hcs, ?_, ?_⟩
    · show _ = (-0.7 : F) ^ 0 * _
      rw [pow_zero, one_mul]
      rfl
    · show _ = (-0.7 : F) ^ 0 * _
      rw [pow_zero, one_mul]
      rfl
  have hd := run_wander_damped L hcs bs calls
    (set_config (cat_behavior_init L screen_width screen_height now g).1 bs m r emin emax wci)
    VelocityTrace.start rfl (fun _ => hstart)
  refine ⟨hd, ?_, ?_⟩
  · intro hw hx hy hfrom
    obtain ⟨ux, uy, hu, h1, h2⟩ := hd hw
    rw [hx, pow_zero, one_mul] at h1
    rw [hy, pow_zero, one_mul] at h2
    unfold speed_sq
    rw [h1, h2, hu]
    rcases hfrom with hf | hb
    · rw [hf]
      simp
    · rw [hb]
      simp
  · intro cat seconds current_time entry_time g2 hpre hpost hp
    rw [cat_behavior_tick_state] at hpost
    have ht := tick_transition_same_state L cat current_time entry_time g2
      (hpost.trans hpre.symm)
    have hv := cat_behavior_tick_velocity L cat seconds current_time entry_time g2 hp
    rw [ht] at hv
    exact hv

/-! ## The wandering example -/

theorem libQ_cosf : libQ.cosf = qcos := rfl

theorem libQ_sinf : libQ.sinf = qsin := rfl

theorem cat_40_eq :
    cat_40 =
      { x := 50, y := 50, vx := 30, vy := 0, screen_width := 100, screen_height := 100,
        state := CAT_STATE_WANDERING, state_start_time := 0, target_x := 0, target_y := 0,
        base_speed := 40, retreat_speed_multiplier := 3, mouse_avoidance_radius := 150,
        examine_duration_min := 3 / 2, examine_duration_max := 4, wander_change_interval := 3,
        mouse_x := 0, mouse_y := 0, mouse_nearby := false, texture_width := 0,
        texture_height := 0 } := by
  simp [cat_40, set_config, cat_100_eq]

theorem tick_cat_40_eq :
    (cat_behavior_tick libQ cat_40 2 0 0 (constRng 2147483647)).1 = cat_40_damped := by
  simp [cat_behavior_tick, tick_perturb, tick_bounce, tick_bounce_x, tick_bounce_y,
    tick_integrate, tick_transition, cat_40_damped, cat_40_eq, randf_libQ_max, constRng_next]
  norm_num [randf_libQ_max]

theorem tick_cat_40_trace :
    tick_trace libQ cat_40 2 0 0 (constRng 2147483647) VelocityTrace.start
      = { bounces_x := 1, bounces_y := 0, from_init := true } := by
  simp [tick_trace, tick_perturbed, tick_bounced, tick_bounced_x, tick_bounced_y,
    tick_integrated, tick_bounce, tick_bounce_x, tick_bounce_y, tick_integrate,
    tick_transition, cat_40_eq, randf_libQ_max, VelocityTrace.start]
  norm_num [randf_libQ_max]

theorem tick_cat_40_damped_eq :
    (cat_behavior_tick libQ cat_40_damped 1 0 0 (constRng 2147483647)).1 = cat_40_moved := by
  simp [cat_behavior_tick, tick_perturb, tick_bounce, tick_bounce_x, tick_bounce_y,
    tick_integrate, tick_transition, cat_40_moved, cat_40_damped, cat_40_eq, randf_libQ_max,
    constRng_next]
  norm_num [randf_libQ_max]

theorem tick_cat_40_damped_trace :
    tick_trace libQ cat_40_damped 1 0 0 (constRng 2147483647)
        { bounces_x := 1, bounces_y := 0, from_init := true }
      = { bounces_x := 1, bounces_y := 0, from_init := true } := by
  simp [tick_trace, tick_perturbed, tick_bounced, tick_bounced_x, tick_bounced_y,
    tick_integrated, tick_bounce, tick_bounce_x, tick_bounce_y, tick_integrate,
    tick_transition, cat_40_damped, cat_40_eq, randf_libQ_max]
  norm_num [randf_libQ_max]

theorem tick_cat_40_moved_eq :
    (cat_behavior_tick libQ cat_40_moved 1 4 4 (constRng 0)).1 = cat_40_examining := by
  simp [cat_behavior_tick, tick_perturb, tick_bounce, tick_bounce_x, tick_bounce_y,
    tick_integrate, tick_transition, start_examining, cat_40_examining, cat_40_moved,
    cat_40_damped, cat_40_eq, randf, rand_unit_libQ_zero, constRng_next]
  norm_num [rand_unit_libQ_zero]

theorem tick_cat_40_moved_trace :
    tick_trace libQ cat_40_moved 1 4 4 (constRng 0)
        { bounces_x := 1, bounces_y := 0, from_init := true }
      = { bounces_x := 0, bounces_y := 0, from_init := false } := by
  simp [tick_trace, tick_perturbed, tick_bounced, tick_bounced_x, tick_bounced_y,
    tick_integrated, tick_bounce, tick_bounce_x, tick_bounce_y, tick_integrate,
    tick_transition, start_examining, cat_40_moved, cat_40_damped, cat_40_eq, randf,
    rand_unit_libQ_zero, constRng_next]
  norm_num [rand_unit_libQ_zero]
  simp

theorem tick_cat_40_examining_eq :
    (cat_behavior_tick libQ cat_40_examining (1 / 2) 9 9 (constRng 0)).1
      = cat_40_wandering := by
  simp [cat_behavior_tick, tick_perturb, tick_bounce, tick_bounce_x, tick_bounce_y,
    tick_integrate, tick_transition, start_wandering, cat_40_wandering, cat_40_examining,
    cat_40_moved, cat_40_damped, cat_40_eq, randf, rand_unit_libQ_zero, constRng_next,
    libQ_cosf, libQ_sinf, qcos_zero, qsin_zero]
  norm_num [rand_unit_libQ_zero, qcos_zero, qsin_zero]

theorem tick_cat_40_examining_trace :
    tick_trace libQ cat_40_examining (1 / 2) 9 9 (constRng 0)
        { bounces_x := 0, bounces_y := 0, from_init := false }
      = { bounces_x := 0, bounces_y := 0, from_init := false } := by
  simp [tick_trace, tick_perturbed, tick_bounced, tick_bounced_x, tick_bounced_y,
    tick_integrated, tick_bounce, tick_bounce_x, tick_bounce_y, tick_integrate,
    tick_transition, start_wandering, cat_40_examining, cat_40_moved, cat_40_damped,
    cat_40_eq, randf, rand_unit_libQ_zero, constRng_next, libQ_cosf, libQ_sinf, qcos_zero,
    qsin_zero]
  norm_num [rand_unit_libQ_zero, qcos_zero, qsin_zero]

theorem run_wander_demo :
    run_calls libQ cat_40 wander_demo_calls = cat_40_wandering ∧
    run_trace libQ cat_40 VelocityTrace.start wander_demo_calls
      = { bounces_x := 0, bounces_y := 0, from_init := false } := by
  constructor
  · show (cat_behavior_tick libQ (cat_behavior_tick libQ (cat_behavior_tick libQ
      (cat_behavior_tick libQ cat_40 2 0 0 (constRng 2147483647)).1 1 0 0
      (constRng 2147483647)).1 1 4 4 (constRng 0)).1 (1 / 2) 9 9 (constRng 0)).1 = _
    rw [tick_cat_40_eq, tick_cat_40_damped_eq, tick_cat_40_moved_eq, tick_cat_40_examining_eq]
  · show tick_trace libQ (cat_behavior_tick libQ (cat_behavior_tick libQ
        (cat_behavior_tick libQ cat_40 2 0 0 (constRng 2147483647)).1 1 0 0
        (constRng 2147483647)).1 1 4 4 (constRng 0)).1 (1 / 2) 9 9 (constRng 0)
      (tick_trace libQ (cat_behavior_tick libQ
        (cat_behavior_tick libQ cat_40 2 0 0 (constRng 2147483647)).1 1 0 0
        (constRng 2147483647)).1 1 4 4 (constRng 0)
      (tick_trace libQ (cat_behavior_tick libQ cat_40 2 0 0 (constRng 2147483647)).1 1 0 0
        (constRng 2147483647)
      (tick_trace libQ cat_40 2 0 0 (constRng 2147483647) VelocityTrace.start))) = _
    rw [tick_cat_40_eq, tick_cat_40_damped_eq, tick_cat_40_moved_eq, tick_cat_40_trace,
      tick_cat_40_damped_trace, tick_cat_40_moved_trace, tick_cat_40_examining_trace]

theorem tick_cat_40_second_not_bounced :
    tick_bounced libQ cat_40 1 0 0 (constRng 0) = false := by
  simp [tick_bounced, tick_integrated, tick_bounce, tick_bounce_x, tick_bounce_y,
    tick_integrate, tick_transition, cat_40_eq]
  norm_num

theorem tick_cat_40_second_eq :
    (cat_behavior_tick libQ cat_40 1 0 0 (constRng 0)).1 = { cat_40 with x := 80 } := by
  rw [cat_behavior_tick_of_not_bounced libQ cat_40 1 0 0 (constRng 0)
    tick_cat_40_second_not_bounced]
  simp [tick_integrated, tick_integrate, tick_transition, cat_40_eq]
  norm_num

/-- C10, as stated, fails, in two ways.  From `cat_behavior_init(100, 100)`
(cat at (50, 50), velocity (30, 0), base speed 30), a tick of two seconds
reaches x = 110, bounces off the right edge without a change of direction
(draw 1) and leaves the state `cat_damped`, wandering with velocity (-21, 0).
The next tick, of one second, does not bounce and ends wandering at x = 79
with the same velocity (-21, 0): the speed is not `base_speed` again, although
that tick had no bounce.  And when the host sets the base speed to 40 after
`cat_behavior_init`, a tick of one second without any bounce ends wandering
with the velocity (30, 0) of `cat_behavior_init`: the speed is 30 and not the
base speed 40. -/
theorem wander_speed_not_restored :
    (cat_behavior_tick libQ (cat_behavior_init libQ 100 100 0 (constRng 0)).1
      2 0 0 (constRng 2147483647)).1 = cat_damped ∧
    tick_bounced libQ (cat_behavior_init libQ 100 100 0 (constRng 0)).1
      2 0 0 (constRng 2147483647) = true ∧
    tick_perturbed libQ (cat_behavior_init libQ 100 100 0 (constRng 0)).1
      2 0 0 (constRng 2147483647) = false ∧
    cat_damped.state = CAT_STATE_WANDERING ∧
    tick_bounced libQ cat_damped 1 0 0 (constRng 2147483647) = false ∧
    (cat_behavior_tick libQ cat_damped 1 0 0 (constRng 2147483647)).1.state
      = CAT_STATE_WANDERING ∧
    (cat_behavior_tick libQ cat_damped 1 0 0 (constRng 2147483647)).1.vx = -21 ∧
    (cat_behavior_tick libQ cat_damped 1 0 0 (constRng 2147483647)).1.vy = 0 ∧
    (cat_behavior_tick libQ cat_damped 1 0 0 (constRng 2147483647)).1.base_speed = 30 ∧
    speed_sq (cat_behavior_tick libQ cat_damped 1 0 0 (constRng 2147483647)).1
      ≠ (cat_behavior_tick libQ cat_damped 1 0 0 (constRng 2147483647)).1.base_speed
        * (cat_behavior_tick libQ cat_damped 1 0 0 (constRng 2147483647)).1.base_speed ∧
    tick_bounced libQ
      (set_config (cat_behavior_init libQ 100 100 0 (constRng 0)).1 40 3 150 (3 / 2) 4 3)
      1 0 0 (constRng 0) = false ∧
    (cat_behavior_tick libQ
      (set_config (cat_behavior_init libQ 100 100 0 (constRng 0)).1 40 3 150 (3 / 2) 4 3)
      1 0 0 (constRng 0)).1.state = CAT_STATE_WANDERING ∧
    (cat_behavior_tick libQ
      (set_config (cat_behavior_init libQ 100 100 0 (constRng 0)).1 40 3 150 (3 / 2) 4 3)
      1 0 0 (constRng 0)).1.base_speed = 40 ∧
    speed_sq (cat_behavior_tick libQ
      (set_config (cat_behavior_init libQ 100 100 0 (constRng 0)).1 40 3 150 (3 / 2) 4 3)
      1 0 0 (constRng 0)).1 = 30 * 30 := by
  have h40 : (cat_behavior_tick libQ
      (set_config (cat_behavior_init libQ 100 100 0 (constRng 0)).1 40 3 150 (3 / 2) 4 3)
      1 0 0 (constRng 0)).1 = { cat_40 with x := 80 } := tick_cat_40_second_eq
  refine ⟨tick_cat_100_eq, tick_cat_100_bounced, tick_cat_100_not_perturbed, ?_,
    tick_cat_damped_not_bounced, ?_, ?_, ?_, ?_, ?_, tick_cat_40_second_not_bounced,
    ?_, ?_, ?_⟩
  · simp [cat_damped, cat_100_eq]
  · rw [tick_cat_damped_eq]
    simp [cat_damped, cat_100_eq]
  · rw [tick_cat_damped_eq]
    simp [cat_damped, cat_100_eq]
  · rw [tick_cat_damped_eq]
    simp [cat_damped, cat_100_eq]
  · rw [tick_cat_damped_eq]
    simp [cat_damped, cat_100_eq]
  · rw [tick_cat_damped_eq]
    simp [speed_sq, cat_damped, cat_100_eq]
    norm_num
  · rw [h40]
    simp [cat_40_eq]
  · rw [h40]
    simp [cat_40_eq]
  · rw [h40]
    simp [speed_sq, cat_40_eq]

/-! ## The retreat example -/

theorem rand_unit_max (L : CLib F) (hrm : L.RAND_MAX = 2147483647) :
    rand_unit L (constRng 2147483647) = 1 := by
  unfold rand_unit
  rw [hrm, constRng_apply]
  exact div_self (by norm_num)

theorem retreat_demo_first (L : CLib F) (h100 : L.sqrtf 100 = 10) (g : Rng) :
    (cat_behavior_tick L (cat_behavior_set_mouse_position L
      (set_config (cat_behavior_init L 100 100 0 g).1 30 3 150 (3 / 2) 4 3) 60 50)
      1 0 0 (constRng 0)).1 = retreat_demo_bounced F ∧
    tick_trace L (cat_behavior_set_mouse_position L
      (set_config (cat_behavior_init L 100 100 0 g).1 30 3 150 (3 / 2) 4 3) 60 50)
      1 0 0 (constRng 0) VelocityTrace.start
      = { bounces_x := 1, bounces_y := 0, from_init := false } := by
  constructor
  · simp [cat_behavior_tick, tick_perturb, tick_bounce, tick_bounce_x, tick_bounce_y,
      tick_integrate, tick_transition, start_retreat, cat_behavior_set_mouse_position,
      set_config, cat_behavior_init, retreat_demo_bounced, h100]
    norm_num [h100]
    simp
  · simp [tick_trace, tick_perturbed, tick_bounced, tick_bounced_x, tick_bounced_y,
      tick_integrated, tick_bounce, tick_bounce_x, tick_bounce_y, tick_integrate,
      tick_transition, start_retreat, cat_behavior_set_mouse_position, set_config,
      cat_behavior_init, VelocityTrace.start, h100]
    norm_num [h100]
    simp

theorem retreat_demo_second (L : CLib F) (hrm : L.RAND_MAX = 2147483647) :
    (cat_behavior_tick L (cat_behavior_set_mouse_position L (retreat_demo_bounced F) (-1) (-1))
      1 5 5 (constRng 2147483647)).1 = retreat_demo_examining F ∧
    tick_trace L (cat_behavior_set_mouse_position L (retreat_demo_bounced F) (-1) (-1))
      1 5 5 (constRng 2147483647) { bounces_x := 1, bounces_y := 0, from_init := false }
      = { bounces_x := 0, bounces_y := 0, from_init := false } := by
  have hu := rand_unit_max L hrm
  constructor
  · simp [cat_behavior_tick, tick_perturb, tick_bounce, tick_bounce_x, tick_bounce_y,
      tick_integrate, tick_transition, start_examining, cat_behavior_set_mouse_position,
      retreat_demo_bounced, retreat_demo_examining, randf, constRng_next, hu]
    norm_num [hu]
  · simp [tick_trace, tick_perturbed, tick_bounced, tick_bounced_x, tick_bounced_y,
      tick_integrated, tick_bounce, tick_bounce_x, tick_bounce_y, tick_integrate,
      tick_transition, start_examining, cat_behavior_set_mouse_position,
      retreat_demo_bounced, randf, constRng_next, hu]
    norm_num [hu]
    simp

theorem retreat_demo_third (L : CLib F) (h100 : L.sqrtf 100 = 10)
    (hrm : L.RAND_MAX = 2147483647) :
    (cat_behavior_tick L (cat_behavior_set_mouse_position L (retreat_demo_examining F) 0 60)
      (1 / 10) 5 5 (constRng 2147483647)).1 = retreat_demo_final F ∧
    tick_trace L (cat_behavior_set_mouse_position L (retreat_demo_examining F) 0 60)
      (1 / 10) 5 5 (constRng 2147483647) { bounces_x := 0, bounces_y := 0, from_init := false }
      = { bounces_x := 0, bounces_y := 0, from_init := false } := by
  have hu := rand_unit_max L hrm
  constructor
  · simp [cat_behavior_tick, tick_perturb, tick_bounce, tick_bounce_x, tick_bounce_y,
      tick_integrate, tick_transition, start_retreat, cat_behavior_set_mouse_position,
      retreat_demo_bounced, retreat_demo_examining, retreat_demo_final, randf, constRng_next,
      hu, h100]
    norm_num [hu, h100]
  · simp [tick_trace, tick_perturbed, tick_bounced, tick_bounced_x, tick_bounced_y,
      tick_integrated, tick_bounce, tick_bounce_x, tick_bounce_y, tick_integrate,
      tick_transition, start_retreat, cat_behavior_set_mouse_position,
      retreat_demo_bounced, retreat_demo_examining, randf, constRng_next, hu, h100]
    norm_num [hu, h100]

/-- The retreat example, for a library whose `sqrtf` is right at 100 and
whose `RAND_MAX` is `2^31 - 1`: the run ends in `retreat_demo_final`, with no
bounce recorded since the latest entry into the retreating state. -/
theorem run_retreat_demo (L : CLib F) (h100 : L.sqrtf 100 = 10)
    (hrm : L.RAND_MAX = 2147483647) (g : Rng) :
    run_calls L (set_config (cat_behavior_init L 100 100 0 g).1 30 3 150 (3 / 2) 4 3)
      (retreat_demo_calls F) = retreat_demo_final F ∧
    run_trace L (set_config (cat_behavior_init L 100 100 0 g).1 30 3 150 (3 / 2) 4 3)
      VelocityTrace.start (retreat_demo_calls F)
      = { bounces_x := 0, bounces_y := 0, from_init := false } := by
  obtain ⟨a1, a2⟩ := retreat_demo_first L h100 g
  obtain ⟨b1, b2⟩ := retreat_demo_second L hrm
  obtain ⟨c1, c2⟩ := retreat_demo_third L h100 hrm
  constructor
  · show (cat_behavior_tick L (cat_behavior_set_mouse_position L
      (cat_behavior_tick L (cat_behavior_set_mouse_position L
        (cat_behavior_tick L (cat_behavior_set_mouse_position L
          (set_config (cat_behavior_init L 100 100 0 g).1 30 3 150 (3 / 2) 4 3) 60 50)
          1 0 0 (constRng 0)).1 (-1) (-1)) 1 5 5 (constRng 2147483647)).1 0 60)
      (1 / 10) 5 5 (constRng 2147483647)).1 = _
    rw [a1, b1, c1]
  · show tick_trace L (cat_behavior_set_mouse_position L
      (cat_behavior_tick L (cat_behavior_set_mouse_position L
        (cat_behavior_tick L (cat_behavior_set_mouse_position L
          (set_config (cat_behavior_init L 100 100 0 g).1 30 3 150 (3 / 2) 4 3) 60 50)
          1 0 0 (constRng 0)).1 (-1) (-1)) 1 5 5 (constRng 2147483647)).1 0 60)
      (1 / 10) 5 5 (constRng 2147483647)
      (tick_trace L (cat_behavior_set_mouse_position L
        (cat_behavior_tick L (cat_behavior_set_mouse_position L
          (set_config (cat_behavior_init L 100 100 0 g).1 30 3 150 (3 / 2) 4 3) 60 50)
          1 0 0 (constRng 0)).1 (-1) (-1)) 1 5 5 (constRng 2147483647)
      (tick_trace L (cat_behavior_set_mouse_position L
          (set_config (cat_behavior_init L 100 100 0 g).1 30 3 150 (3 / 2) 4 3) 60 50)
          1 0 0 (constRng 0) VelocityTrace.start)) = _
    rw [a1, a2, b1, b2, c2]

/-- C9 (amended) at a concrete input over the real numbers with the real
square root: the retreat example.  From `cat_behavior_init(100, 100)` with
speeds 30 and 3, the first retreat bounces off the left edge (velocity
(63, 0)), the cat leaves the retreating state, and a second retreat is entered
without a bounce: the run ends retreating with no bounce recorded since that
entry, and the speed is 90 again. -/
theorem retreat_velocity_since_entry_witness :
    (∀ q : ℝ, 0 ≤ q → 0 ≤ Real.sqrt q ∧ Real.sqrt q * Real.sqrt q = q) ∧
    (run_calls
      ({ sqrtf := Real.sqrt, cosf := Real.cos, sinf := Real.sin, M_PI := Real.pi,
         RAND_MAX := 2147483647 } : CLib ℝ)
      (set_config (cat_behavior_init
        ({ sqrtf := Real.sqrt, cosf := Real.cos, sinf := Real.sin, M_PI := Real.pi,
           RAND_MAX := 2147483647 } : CLib ℝ) 100 100 0 (constRng 0)).1 30 3 150 (3 / 2) 4 3)
      (retreat_demo_calls ℝ)).state = CAT_STATE_RETREATING ∧
    run_trace
      ({ sqrtf := Real.sqrt, cosf := Real.cos, sinf := Real.sin, M_PI := Real.pi,
         RAND_MAX := 2147483647 } : CLib ℝ)
      (set_config (cat_behavior_init
        ({ sqrtf := Real.sqrt, cosf := Real.cos, sinf := Real.sin, M_PI := Real.pi,
           RAND_MAX := 2147483647 } : CLib ℝ) 100 100 0 (constRng 0)).1 30 3 150 (3 / 2) 4 3)
      VelocityTrace.start (retreat_demo_calls ℝ)
      = { bounces_x := 0, bounces_y := 0, from_init := false } ∧
    speed_sq (run_calls
      ({ sqrtf := Real.sqrt, cosf := Real.cos, sinf := Real.sin, M_PI := Real.pi,
         RAND_MAX := 2147483647 } : CLib ℝ)
      (set_config (cat_behavior_init
        ({ sqrtf := Real.sqrt, cosf := Real.cos, sinf := Real.sin, M_PI := Real.pi,
           RAND_MAX := 2147483647 } : CLib ℝ) 100 100 0 (constRng 0)).1 30 3 150 (3 / 2) 4 3)
      (retreat_demo_calls ℝ)) = 30 * 3 * (30 * 3) := by
  have hsqrt : ∀ q : ℝ, 0 ≤ q → 0 ≤ Real.sqrt q ∧ Real.sqrt q * Real.sqrt q = q :=
    fun q hq => ⟨Real.sqrt_nonneg q, Real.mul_self_sqrt hq⟩
  have h100 : Real.sqrt 100 = 10 := by
    have h0 := Real.sqrt_mul_self (show (0 : ℝ) ≤ 10 by norm_num)
    norm_num at h0
    exact h0
  obtain ⟨hrun, htr⟩ := run_retreat_demo
    ({ sqrtf := Real.sqrt, cosf := Real.cos, sinf := Real.sin, M_PI := Real.pi,
       RAND_MAX := 2147483647 } : CLib ℝ) h100 rfl (constRng 0)
  have hr : (run_calls
      ({ sqrtf := Real.sqrt, cosf := Real.cos, sinf := Real.sin, M_PI := Real.pi,
         RAND_MAX := 2147483647 } : CLib ℝ)
      (set_config (cat_behavior_init
        ({ sqrtf := Real.sqrt, cosf := Real.cos, sinf := Real.sin, M_PI := Real.pi,
           RAND_MAX := 2147483647 } : CLib ℝ) 100 100 0 (constRng 0)).1 30 3 150 (3 / 2) 4 3)
      (retreat_demo_calls ℝ)).state = CAT_STATE_RETREATING := by
    rw [hrun]
    rfl
  refine ⟨hsqrt, hr, htr, ?_⟩
  refine (retreat_velocity_since_entry _ hsqrt 100 100 0 (constRng 0) 30 3 150 (3 / 2) 4 3
    (by norm_num) (by norm_num) (retreat_demo_calls ℝ) hr).2.2.1 ?_ ?_
  · rw [htr]
  · rw [htr]

/-- C10 (amended) at a concrete input: the wandering example.  From
`cat_behavior_init(100, 100)` with the base speed set to 40, the cat bounces
off the right edge without a change of direction, keeps the damped velocity
(-21, 0) for a tick, examines, and enters the wandering state again: the run
ends wandering with no bounce recorded since that entry, and the speed is the
base speed 40. -/
theorem wander_velocity_since_assigned_witness :
    (∀ a : ℚ, libQ.cosf a * libQ.cosf a + libQ.sinf a * libQ.sinf a = 1) ∧
    (run_calls libQ
      (set_config (cat_behavior_init libQ 100 100 0 (constRng 0)).1 40 3 150 (3 / 2) 4 3)
      wander_demo_calls).state = CAT_STATE_WANDERING ∧
    run_trace libQ
      (set_config (cat_behavior_init libQ 100 100 0 (constRng 0)).1 40 3 150 (3 / 2) 4 3)
      VelocityTrace.start wander_demo_calls
      = { bounces_x := 0, bounces_y := 0, from_init := false } ∧
    speed_sq (run_calls libQ
      (set_config (cat_behavior_init libQ 100 100 0 (constRng 0)).1 40 3 150 (3 / 2) 4 3)
      wander_demo_calls) = 40 * 40 := by
  obtain ⟨hrun, htr⟩ := run_wander_demo
  have hrun2 : run_calls libQ
      (set_config (cat_behavior_init libQ 100 100 0 (constRng 0)).1 40 3 150 (3 / 2) 4 3)
      wander_demo_calls = cat_40_wandering := hrun
  have htr2 : run_trace libQ
      (set_config (cat_behavior_init libQ 100 100 0 (constRng 0)).1 40 3 150 (3 / 2) 4 3)
      VelocityTrace.start wander_demo_calls
      = { bounces_x := 0, bounces_y := 0, from_init := false } := htr
  have hw : (run_calls libQ
      (set_config (cat_behavior_init libQ 100 100 0 (constRng 0)).1 40 3 150 (3 / 2) 4 3)
      wander_demo_calls).state = CAT_STATE_WANDERING := by
    rw [hrun2]
    rfl
  refine ⟨qcos_sq_add_qsin_sq, hw, htr2, ?_⟩
  refine (wander_velocity_since_assigned libQ qcos_sq_add_qsin_sq 100 100 0 (constRng 0)
    40 3 150 (3 / 2) 4 3 wander_demo_calls).2.1 hw ?_ ?_ ?_
  · rw [htr2]
  · rw [htr2]
  · rw [htr2]
    exact Or.inl rfl

end Claims

end CuriousCat
